import Mathlib

/-!
# Verification of the statmrg ebook layout & pagination engine

This file gives a shallow embedding, in Lean 4, of the layout / pagination
core of the statmrg ebook generator (`src/modules/pdf_generator.py`,
`src/modules/hwpx_generator.py`, `src/app.py`) and proves or refutes the
frozen specification claims about it.

Modelling conventions, used consistently below:

* Python `str` is modelled by `String`; indexing, slicing and `len` are over
  code points exactly as in Python 3.
* Python `float` arithmetic is modelled by `ℚ` (exact rationals).  Every
  quantity that appears (margins, font sizes, 1.6 line spacing, A4 page
  sizes, the fixed constants 697.86 / 475.28 used by the HWPX estimator)
  is an exact decimal or an exact mm→pt conversion, and every claim proved
  or refuted here is robust to the (tiny) difference between binary floats
  and exact rationals: the refutations all hold by margins of tens of
  points / whole pages, never by an epsilon.
* `reportlab`'s `canvas.stringWidth(text, font, size)` is the sum of the
  font's per-glyph advance widths (in 1/1000 em) times `size/1000`.  The
  font is an input of the program, so the embedding is parameterised by a
  glyph-width table `cw : Char → ℚ`; concrete evaluations instantiate it
  with the uniform full-width table (`fun _ => 1000`, i.e. one em per
  glyph), the very heuristic the specification itself declares valid for
  the Hangul-dominated text this system targets.
* Mutable render state (`self.y`, canvas page number, `self._page_drawn`)
  is threaded explicitly as a `Pdf.RState` value.
-/

/-! ## Python string primitives -/

/-- The whitespace class stripped by Python's `str.strip()` and matched by
`\s` in a pattern, restricted to the code points this code base can meet
(ASCII whitespace).  All strings manipulated by the generators are compared
and split on exactly these characters. -/
def isPySpace (c : Char) : Bool :=
  c = ' ' || c = '\t' || c = '\n' || c = '\r' || c = '\x0b' || c = '\x0c'

/-- Python `str.strip()` on a character list: remove leading and trailing
whitespace. -/
def pyStripList (l : List Char) : List Char :=
  ((l.dropWhile isPySpace).reverse.dropWhile isPySpace).reverse

/-- Python `str.strip()`. -/
def pyStrip (s : String) : String :=
  ⟨pyStripList s.data⟩

/-- Python truthiness of a string (`if s:` / `if s and s.strip():` guards):
a string is truthy iff non-empty. -/
def pyTruthy (s : String) : Bool := s ≠ ""

/-- A Python `for x in l:` accumulation loop, with the accumulator first.
Same as `List.foldl` with the arguments flipped. -/
def foldLoop (l : List α) (x : β) (f : β → α → β) : β := l.foldl f x

/-- Substring containment, Python's `sub in s` (used by the slide renderer
to classify section titles and highlight labels). -/
def listInfixOf [DecidableEq α] : List α → List α → Bool
  | _, [] => false
  | sub, a :: rest =>
      ((a :: rest).take sub.length = sub) || listInfixOf sub rest

/-- `pyIn sub s` is Python's `sub in s` for strings (always true for the
empty needle, as in Python). -/
def pyIn (sub s : String) : Bool :=
  sub = "" || listInfixOf sub.data s.data

/-- Python's floor division `a // b` on integers (rounds towards `-∞`). -/
def pyFloorDiv (a b : ℤ) : ℤ := Int.fdiv a b

/-! ## The markup regular expressions

Each renderer classifies the (already `strip()`ped) lines of a chapter body
with the same small set of regular expressions.  They are simple enough to
model exactly, including the backtracking order of the Python `re` engine,
which matters only for `^={2,}\s*(.+?)\s*={2,}$`. -/

/-- Does `r` match the tail pattern `\s*={2,}$`: optional whitespace and
then at least two `=` running to the end of the line?  (Deterministic:
whitespace and `=` are disjoint character classes.) -/
def headingTail (r : List Char) : Bool :=
  let r' := r.dropWhile isPySpace
  2 ≤ r'.length && r'.all (· = '=')

/-- The lazy group `(.+?)` of the heading pattern: the shortest non-empty
prefix of `rem` whose remainder matches `\s*={2,}$`. -/
def headingLazyGroup (rem : List Char) : Option (List Char) :=
  (List.range' 1 rem.length).findSome? fun k =>
    if headingTail (rem.drop k) then some (rem.take k) else none

/-- Backtracking over the greedy `\s*` after the opening `=` run: widths are
tried from longest to shortest, as the `re` engine does. -/
def headingAfterWs (rem : List Char) : Option (List Char) :=
  let wsMax := (rem.takeWhile isPySpace).length
  ((List.range (wsMax + 1)).reverse).findSome? fun w =>
    headingLazyGroup (rem.drop w)

/-- `re.match(r'^={2,}\s*(.+?)\s*={2,}$', line)`, returning `group(1)`.
The greedy `={2,}` tries the whole leading `=` run first and backtracks
down to two. -/
def headingMatch (s : List Char) : Option (List Char) :=
  let eqMax := (s.takeWhile (· = '=')).length
  if eqMax < 2 then none
  else
    (((List.range (eqMax - 1)).map (· + 2)).reverse).findSome? fun a =>
      headingAfterWs (s.drop a)

/-- String wrapper for `headingMatch`. -/
def headingMatchStr (s : String) : Option String :=
  (headingMatch s.data).map (⟨·⟩)

/-- `re.match(r'^\[([^\]]{2,20})\]\s*(.*)', line)`:
the label is everything before the first `]` (which must be 2–20
characters), `group(2)` is the rest of the line after the greedy `\s*`.
Returns `(group(1), group(2))`. -/
def bracketMatch (s : List Char) : Option (List Char × List Char) :=
  match s with
  | [] => none
  | a :: rest =>
      if a = '[' then
        let label := rest.takeWhile (· ≠ ']')
        if label.length = rest.length then none   -- no closing bracket
        else if 2 ≤ label.length ∧ label.length ≤ 20 then
          some (label, (rest.drop (label.length + 1)).dropWhile isPySpace)
        else none
      else none

/-- String wrapper for `bracketMatch`. -/
def bracketMatchStr (s : String) : Option (String × String) :=
  (bracketMatch s.data).map fun (l, r) => (⟨l⟩, ⟨r⟩)

/-- `re.match(r'^(\d+)[.)]\s+(.+)', line)`: a run of ASCII digits, then `.`
or `)`, then at least one whitespace character, then a non-empty rest.
Returns `(group(1), group(2))`. -/
def numListMatch (s : List Char) : Option (List Char × List Char) :=
  let digits := s.takeWhile (·.isDigit)
  if digits.isEmpty then none
  else
    match s.drop digits.length with
    | p :: rest =>
        if (p = '.' || p = ')') then
          let ws := rest.takeWhile isPySpace
          if ws.isEmpty then none
          else
            let body := rest.drop ws.length
            if body.isEmpty then none else some (digits, body)
        else none
    | [] => none

/-- String wrapper for `numListMatch`. -/
def numListMatchStr (s : String) : Option (String × String) :=
  (numListMatch s.data).map fun (n, t) => (⟨n⟩, ⟨t⟩)

/-- `re.match(r'^[-•●▶►✓]\s+', line)` — the bullet-glyph test used by the
HWPX generator and its height estimator. -/
def bulletMatchHwpx (s : List Char) : Bool :=
  match s with
  | g :: w :: _ =>
      (g = '-' || g = '•' || g = '●' || g = '▶' || g = '►' || g = '✓')
        && isPySpace w
  | _ => false

/-- `re.match(r'^[-•●▶►✓☑✔▷※]\s+(.+)', line)` — the wider glyph set of the
slide deck's bullet extractor; returns `group(1)`. -/
def bulletMatchPptx (s : List Char) : Option (List Char) :=
  match s with
  | g :: rest =>
      if (g = '-' || g = '•' || g = '●' || g = '▶' || g = '►' || g = '✓'
          || g = '☑' || g = '✔' || g = '▷' || g = '※') then
        let ws := rest.takeWhile isPySpace
        if ws.isEmpty then none
        else
          let body := rest.drop ws.length
          if body.isEmpty then none else some body
      else none
  | [] => none

/-- `re.match(r'^\[(핵심 포인트|실전 팁|TIP|핵심|포인트|POINT)\]\s*(.*)', line)`
as a Boolean test: the fixed-page renderer draws a tip box only for these
six literal labels, bracketed exactly. -/
def tipMatchPdf (s : String) : Bool :=
  ["[핵심 포인트]", "[실전 팁]", "[TIP]", "[핵심]", "[포인트]", "[POINT]"].any
    fun p => p.data.isPrefixOf s.data

/-! ## The ebook data model

The dictionary `ebook_data` that every generator consumes (see
`app.py`'s fixture for the concrete shape).  Optional dictionaries are
`Option` values — Python tests them with dict truthiness (`if analysis:`)
and falls back to `''` via `.get` when absent, which the accessor
functions below reproduce. -/

structure ChapterMeta where
  chapter_num : Option ℕ        -- `ch.get('chapter_num', …)` default varies per call site
  title : String
  phase : String
  before_state : String
  after_state : String
  purpose : String
deriving DecidableEq, Repr

structure ChapterContent where
  chapter : ChapterMeta
  content : String
deriving DecidableEq, Repr

structure ProblemSolved where
  time : String
  money : String
  emotion : String
deriving DecidableEq, Repr

structure AnalysisD where
  problem_solved : ProblemSolved
  why_pay : String
  target_reader : String
deriving DecidableEq, Repr

structure ValueSummaryD where
  time_saved : String
  money_saved : String
  mistakes_prevented : String
deriving DecidableEq, Repr

structure MarketingD where
  sales_copy : String
  value_summary : Option ValueSummaryD
deriving DecidableEq, Repr

/-- The root document.  `chapter_images` records, per positional chapter,
whether a chapter-start image URL is present *and* its download and
drawing succeed (the fixed-page renderer's `download_image`/`drawImage`
can each fail, in which case nothing is drawn). -/
structure Ebook where
  book_title : String
  subtitle : String
  chapters : List ChapterMeta           -- book_info['chapters']
  chapters_content : List ChapterContent
  prologue : Option String
  epilogue : Option String
  analysis : Option AnalysisD           -- none ⇔ `analysis` dict missing/empty (falsy)
  marketing : Option MarketingD
  chapter_images : List Bool
deriving DecidableEq, Repr

namespace Ebook

/-- `ebook_data.get('prologue', '')`. -/
def prologueStr (d : Ebook) : String := d.prologue.getD ""

/-- `ebook_data.get('epilogue', '')`. -/
def epilogueStr (d : Ebook) : String := d.epilogue.getD ""

/-- `analysis.get('target_reader', …)` (empty when the dict is falsy). -/
def targetReader (d : Ebook) : String :=
  match d.analysis with | none => "" | some a => a.target_reader

/-- `analysis.get('why_pay', '')`. -/
def whyPay (d : Ebook) : String :=
  match d.analysis with | none => "" | some a => a.why_pay

/-- `analysis.get('problem_solved', {})` field access. -/
def problemSolved (d : Ebook) : ProblemSolved :=
  match d.analysis with | none => ⟨"", "", ""⟩ | some a => a.problem_solved

end Ebook

/-- `ch.get('chapter_num', i + 1)` for the positional chapter `i`
(the default used by the estimators' recording loops). -/
def chapterNumAt (chapters : List ChapterMeta) (i : ℕ) : ℕ :=
  match chapters.get? i with
  | some ch => ch.chapter_num.getD (i + 1)
  | none => i + 1

/-! ## XML escaping (`hwpx_generator._esc` = `xml.sax.saxutils.escape`)

`saxutils.escape` replaces `&` by `&amp;` first, then `<` by `&lt;`, then
`>` by `&gt;`.  Because the replacement strings introduce no new `<`/`>`
and the later passes never touch the `&` of an already-inserted entity,
the chain is equivalent to the per-character map below. -/

/-- Escape one character as `saxutils.escape` does. -/
def escChar (c : Char) : List Char :=
  if c = '&' then ['&', 'a', 'm', 'p', ';']
  else if c = '<' then ['&', 'l', 't', ';']
  else if c = '>' then ['&', 'g', 't', ';']
  else [c]

/-- `_esc(text)` of `hwpx_generator.py` (lines 39–41). -/
def esc (s : String) : String :=
  ⟨s.data.flatMap escChar⟩

/-- Every `&` in a character list starts one of the three entities
`&amp;` `&lt;` `&gt;`.  Together with the absence of raw `<`/`>` this is
what keeps an `<hp:t>` text node well-formed. -/
def ampEntitiesOnly : List Char → Prop
  | [] => True
  | c :: rest =>
      if c = '&' then
        (rest.take 4 = ['a', 'm', 'p', ';'] ∧ ampEntitiesOnly (rest.drop 4)) ∨
        (rest.take 3 = ['l', 't', ';'] ∧ ampEntitiesOnly (rest.drop 3)) ∨
        (rest.take 3 = ['g', 't', ';'] ∧ ampEntitiesOnly (rest.drop 3))
      else ampEntitiesOnly rest
termination_by l => l.length
decreasing_by
  all_goals simp [List.length_drop]
  all_goals omega

namespace Hwpx

/-! ## The HWPX generator (`hwpx_generator.py`)

A content paragraph `hp:p` is determined by its text and the four style
ids passed to `_make_para` (paragraph ids are consecutive integers and
carry no information, so they are left out of the block model). -/

structure Para where
  text : String
  paraPrId : ℕ
  charPrId : ℕ
  styleId : ℕ
  pageBreak : Bool
deriving DecidableEq, Repr

/-- `_h1(text, page_break)` (line 563). -/
def h1 (text : String) (pageBreak : Bool := false) : Para :=
  ⟨text, 1, 1, 2, pageBreak⟩

/-- `_h2(text)` (line 567). -/
def h2 (text : String) : Para := ⟨text, 2, 2, 3, false⟩

/-- `_body(text)` (line 570). -/
def body (text : String) : Para := ⟨text, 0, 0, 1, false⟩

/-- `_label(text)` (line 573). -/
def label (text : String) : Para := ⟨text, 0, 3, 0, false⟩

/-- `_bold(text)` (line 576). -/
def bold (text : String) : Para := ⟨text, 0, 4, 1, false⟩

/-- `_toc(text)` (line 579). -/
def toc (text : String) : Para := ⟨text, 3, 5, 4, false⟩

/-- `_bullet(text)` (line 582): prepends the glyph `• `. -/
def bullet (text : String) : Para := ⟨"• " ++ text, 4, 0, 5, false⟩

/-- `_empty()` (line 586). -/
def emptyPara : Para := ⟨"", 0, 0, 0, false⟩

/-- The `<hp:t>` element of a non-empty content paragraph, exactly as
`_make_para` interpolates it (line 557): the paragraph text passes
through `_esc` and nothing else. -/
def hpT (text : String) : String :=
  "<hp:t>" ++ esc text ++ "</hp:t>"

/-- One chapter-body line of `EbookHwpxGenerator.generate` (lines 879–903)
translated to the paragraphs it appends.  The branches are tried in the
source's order: blank, `== … ==` heading, `[label] rest`, glyph bullet,
numbered item, plain body text. -/
def lineParas (line : String) : List Para :=
  let stripped := pyStrip line
  if stripped = "" then [emptyPara]
  else
    match headingMatchStr stripped with
    | some t => [h2 t]
    | none =>
      match bracketMatchStr stripped with
      | some (lbl, rest) =>
          let rest := pyStrip rest
          bold ("[ " ++ lbl ++ " ]") ::
            (if rest ≠ "" then [body rest] else [])
      | none =>
        if bulletMatchHwpx stripped.data then
          [bullet (pyStrip (⟨stripped.data.drop 2⟩))]
        else
          match numListMatchStr stripped with
          | some (n, t) => [bullet (n ++ ". " ++ t)]
          | none => [body stripped]

/-! ### The pt-based height model (`_calc_content_height_pt`, lines 589–658) -/

/-- `max(1, -(-len(s) // cpl))` — the wrapped-line count used throughout
the HWPX estimator (`_wrap_lines`, line 603), written with Python's floor
division. -/
def wrapLinesCalc (s : String) (cpl : ℤ) : ℤ :=
  max 1 (-(pyFloorDiv (-(s.length : ℤ)) cpl))

/-- The closed form demanded by the specification for `estimateLineCount`:
`charsPerLine = floor(columnWidthPt / fontSizePt)`,
`lines = max(1, ceil(len(text) / charsPerLine))`.
(Spec-side definition, for comparison with the source-side ones.) -/
def specLineCount (t : String) (fontSizePt columnWidthPt : ℚ) : ℤ :=
  let cpl : ℤ := ⌊columnWidthPt / fontSizePt⌋
  max 1 ⌈(t.length : ℚ) / (cpl : ℚ)⌉

/-- The per-format estimator constants (`fs`, `hs`, `ss`, `ls` read from
the configuration in `generate`, lines 696–699). -/
structure Cfg where
  fs : ℚ
  hs : ℚ
  ss : ℚ
  ls : ℚ
deriving Repr

/-- The defaults of `config.DEFAULT_CONFIG`: 11 / 16 / 13 / 1.6. -/
def defaultCfg : Cfg := ⟨11, 16, 13, 8/5⟩

/-- Fixed content-box width used by the estimator (475.28 pt, line 748). -/
def PAGE_W : ℚ := 47528 / 100

/-- Fixed content-box height used by the estimator (697.86 pt, line 747). -/
def PAGE_H : ℚ := 69786 / 100

/-- `_calc_content_height_pt(text, fs, hs, ss, ls, page_width_pt)`
(lines 589–658): total simulated height of a chapter body.  Mirrors the
rendering parser branch for branch; each branch adds
`lines · (size · spacing)` plus the paragraph's prev/next margins. -/
def calcContentHeightPt (c : Cfg) (pw : ℚ) (text : String) : ℚ :=
  if text = "" then 0
  else
    let cpl : ℤ := ⌊pw / c.fs⌋
    let cplSs : ℤ := ⌊pw / c.ss⌋
    let wrap : String → ℚ := fun s => ((wrapLinesCalc s cpl : ℤ) : ℚ)
    let bodyH : ℚ → ℚ := fun n => n * (c.fs * c.ls) + 2
    let bulletH : ℚ → ℚ := fun n => n * (c.fs * c.ls) + 1
    let emptyH : ℚ := c.fs * c.ls + 2
    foldLoop (text.splitOn "\n") 0 fun total rawLine =>
      let stripped := pyStrip rawLine
      if stripped = "" then total + emptyH
      else
        match headingMatchStr stripped with
        | some t =>
            total + (6 + ((wrapLinesCalc t cplSs : ℤ) : ℚ) * (c.ss * c.ls) + 3)
        | none =>
          match bracketMatchStr stripped with
          | some (lbl, rest) =>
              let rest := pyStrip rest
              let t := total + bodyH (wrap ("[ " ++ lbl ++ " ]"))
              if rest ≠ "" then t + bodyH (wrap rest) else t
          | none =>
            if bulletMatchHwpx stripped.data then
              total + bulletH (wrap ("• " ++ pyStrip ⟨stripped.data.drop 2⟩))
            else
              match numListMatchStr stripped with
              | some (n, t) =>
                  total + bulletH (wrap ("• " ++ n ++ ". " ++ t))
              | none => total + bodyH (wrap stripped)

/-! ### The page estimator inside `generate` (lines 745–821) -/

/-- `H1_HEIGHT = hs*ls + 10 + 6` (line 752). -/
def H1_HEIGHT (c : Cfg) : ℚ := c.hs * c.ls + 10 + 6

/-- `H2_HEIGHT = ss*ls + 6 + 3` (line 754). -/
def H2_HEIGHT (c : Cfg) : ℚ := c.ss * c.ls + 6 + 3

/-- `BODY_LINE = fs*ls + 2` (line 756). -/
def BODY_LINE (c : Cfg) : ℚ := c.fs * c.ls + 2

/-- `EMPTY_LINE = fs*ls + 2` (line 758). -/
def EMPTY_LINE (c : Cfg) : ℚ := c.fs * c.ls + 2

/-- `TOC_LINE = fs*ls + 1` (line 760). -/
def TOC_LINE (c : Cfg) : ℚ := c.fs * c.ls + 1

/-- `_text_height(text)` (lines 762–774): plain body-text height with the
same wrapped-line formula, re-stated inline by this second caller. -/
def textHeightPt (c : Cfg) (text : String) : ℚ :=
  if text = "" then 0
  else
    let cpl : ℤ := ⌊PAGE_W / c.fs⌋
    foldLoop (text.splitOn "\n") 0 fun h ln =>
      let s := pyStrip ln
      if s = "" then h + EMPTY_LINE c
      else h + ((wrapLinesCalc s cpl : ℤ) : ℚ) * (c.fs * c.ls) + 2

/-- `_extra_pages_pt(height_pt)` (lines 776–780): number of page breaks a
section of the given height causes beyond its first page. -/
def extraPagesPt (h : ℚ) : ℕ :=
  if h ≤ PAGE_H then 0 else (⌊(h - 1/10) / PAGE_H⌋).toNat

/-- Height charged per chapter before its body: label line + H1 title +
before + after + blank (line 818). -/
def chapterFixedH (c : Cfg) : ℚ :=
  BODY_LINE c + H1_HEIGHT c + BODY_LINE c + BODY_LINE c + EMPTY_LINE c

/-- The full simulated height of positional chapter `chd` (line 818–820). -/
def chapterHeight (c : Cfg) (chd : ChapterContent) : ℚ :=
  chapterFixedH c + calcContentHeightPt c PAGE_W chd.content

/-- The chapter loop of the estimator (lines 811–821): starting from
`cur`, record `(ch_num, cur+1)` for each chapter and advance by one forced
break plus the chapter's extra pages. -/
def estChapterLoop (c : Cfg) (chapters : List ChapterMeta) :
    List ChapterContent → ℕ → ℕ → List (ℕ × ℕ)
  | [], _, _ => []
  | chd :: rest, i, cur =>
      let cur := cur + 1                -- 챕터 시작 (page_break=True)
      (chapterNumAt chapters i, cur) ::
        estChapterLoop c chapters rest (i + 1)
          (cur + extraPagesPt (chapterHeight c chd))

/-- Page counter value after the front matter of the estimator
(lines 782–808): cover, forced-break TOC, optional value summary,
optional prologue. -/
def estFrontPages (c : Cfg) (d : Ebook) : ℕ :=
  let n := d.chapters.length
  let cur := 1                                        -- 표지 = 1페이지
  let tocH := H1_HEIGHT c + EMPTY_LINE c + (n : ℚ) * TOC_LINE c + EMPTY_LINE c
  let cur := cur + 1 + extraPagesPt tocH
  let cur :=
    match d.analysis with
    | none => cur
    | some a =>
        let valH := H1_HEIGHT c
        let valH := if a.problem_solved.time ≠ "" then
            valH + H2_HEIGHT c + textHeightPt c a.problem_solved.time else valH
        let valH := if a.problem_solved.money ≠ "" then
            valH + H2_HEIGHT c + textHeightPt c a.problem_solved.money else valH
        let valH := if a.problem_solved.emotion ≠ "" then
            valH + H2_HEIGHT c + textHeightPt c a.problem_solved.emotion else valH
        let valH := if a.why_pay ≠ "" then
            valH + H2_HEIGHT c + textHeightPt c a.why_pay else valH
        cur + 1 + extraPagesPt valH
  if pyTruthy d.prologueStr && pyTruthy (pyStrip d.prologueStr) then
    cur + 1 + extraPagesPt (H1_HEIGHT c + textHeightPt c d.prologueStr)
  else cur

/-- `chapter_est_pages` as the ordered list of `(ch_num, page)` recordings
made by the estimator loop (the Python dict is keyed by `ch_num`; the
recordings happen in chapter order). -/
def chapterEstPages (c : Cfg) (d : Ebook) : List (ℕ × ℕ) :=
  estChapterLoop c d.chapters d.chapters_content 0 (estFrontPages c d)

end Hwpx

/-- Python dict lookup for a dict built by repeated `d[k] = v` assignments
recorded in order: the *last* assignment wins. -/
def dictGet (m : List (ℕ × ℕ)) (k : ℕ) : Option ℕ :=
  m.reverse.lookup k

/-- `re.sub(r'[^\w가-힣\s-]', '', title)[:50].strip()` — the file-name stem
shared by every generator (pdf_generator.py line 384, hwpx_generator.py
line 725, whose class `[^\w가-힣\s\-]` is the same set).

`\w` is Unicode word characters; the model covers the repertoire this
system's titles draw from (ASCII word characters and Hangul syllables,
the latter also matched explicitly by `가-힣`), plus whitespace and the
hyphen. -/
def allowedTitleChar (c : Char) : Bool :=
  c.isAlpha || c.isDigit || c = '_'
    || (0xAC00 ≤ c.toNat && c.toNat ≤ 0xD7A3)
    || isPySpace c || c = '-'

/-- The sanitized title stem as computed by the source:
remove, truncate to 50, then `strip()`. -/
def sanitizeTitle (t : String) : String :=
  pyStrip ⟨(t.data.filter allowedTitleChar).take 50⟩

/-- The transformation the claim describes: remove, then truncate — with
no final `strip()` (spec-side definition, for comparison). -/
def claimedTitleStem (t : String) : String :=
  ⟨(t.data.filter allowedTitleChar).take 50⟩

namespace Hwpx

/-- The TOC paragraph text for one chapter row (lines 823–832):
`f"[{phase}]  CHAPTER {num}  {ch_title}  {dots} {pg_num}"` where `num` is
`ch.get('chapter_num', '')` and the page number is looked up in the
estimator's dict by that key. -/
def tocEntryText (estMap : List (ℕ × ℕ)) (ch : ChapterMeta) : String :=
  let numStr := match ch.chapter_num with | some n => toString n | none => ""
  let pgStr := match ch.chapter_num with
    | some n => match dictGet estMap n with | some p => toString p | none => ""
    | none => ""
  let head := "[" ++ ch.phase ++ "]  CHAPTER " ++ numStr ++ "  " ++ ch.title
  let dots : String := ⟨List.replicate (max 2 (40 - head.length)) '·'⟩
  head ++ "  " ++ dots ++ " " ++ pgStr

/-- Paragraphs of one positional chapter (lines 862–903). -/
def chapterParas (i : ℕ) (chd : ChapterContent) : List Para :=
  [label ("CHAPTER " ++ toString (i + 1) ++ "  ·  " ++ chd.chapter.phase),
   h1 chd.chapter.title true]
  ++ (if chd.chapter.before_state ≠ "" then
        [body ("읽기 전: " ++ chd.chapter.before_state)] else [])
  ++ (if chd.chapter.after_state ≠ "" then
        [bold ("읽고 난 후: " ++ chd.chapter.after_state)] else [])
  ++ [emptyPara]
  ++ (chd.content.splitOn "\n").flatMap lineParas

/-- Paragraphs of a free-text section (prologue / epilogue bodies,
lines 854–859 and 909–914): one body or empty paragraph per line. -/
def freeTextParas (text : String) : List Para :=
  (text.splitOn "\n").map fun line =>
    let s := pyStrip line
    if s ≠ "" then body s else emptyPara

/-- The complete content-paragraph list of `EbookHwpxGenerator.generate`
(lines 729–930): cover, TOC (with estimated page numbers), value summary,
prologue, chapters, epilogue, marketing appendix. -/
def hwpxParas (c : Cfg) (d : Ebook) : List Para :=
  let estMap := chapterEstPages c d
  -- 표지
  [h1 d.book_title]
  ++ (if d.subtitle ≠ "" then [h2 d.subtitle] else [])
  ++ [emptyPara]
  ++ (if d.targetReader ≠ "" then [body ("대상 독자: " ++ d.targetReader)] else [])
  -- 목차
  ++ [h1 "목  차" true]
  ++ d.chapters.map (tocEntryText estMap · |> toc)
  ++ [emptyPara]
  -- 가치 요약
  ++ (match d.analysis with
      | none => []
      | some a =>
          [h1 "이 책이 주는 가치" true]
          ++ (if a.problem_solved.time ≠ "" then
                [h2 "절약 시간", body a.problem_solved.time] else [])
          ++ (if a.problem_solved.money ≠ "" then
                [h2 "비용 절감", body a.problem_solved.money] else [])
          ++ (if a.problem_solved.emotion ≠ "" then
                [h2 "감정적 해방", body a.problem_solved.emotion] else [])
          ++ (if a.why_pay ≠ "" then
                [h2 "왜 이 책에 투자해야 하는가", body a.why_pay] else []))
  -- 프롤로그
  ++ (if pyTruthy d.prologueStr && pyTruthy (pyStrip d.prologueStr) then
        h1 "프롤로그" true :: freeTextParas d.prologueStr
      else [])
  -- 챕터 본문
  ++ (List.range d.chapters_content.length).flatMap
       (fun i => chapterParas i (d.chapters_content.getD i ⟨⟨none, "", "", "", "", ""⟩, ""⟩))
  -- 에필로그
  ++ (if pyTruthy d.epilogueStr && pyTruthy (pyStrip d.epilogueStr) then
        h1 "에필로그" true :: freeTextParas d.epilogueStr
      else [])
  -- 마케팅 부록
  ++ (match d.marketing with
      | none => []
      | some m =>
          [h1 "부록: 이 책에 대하여" true]
          ++ (if m.sales_copy ≠ "" then [h2 "판매 소개문", body m.sales_copy] else [])
          ++ (match m.value_summary with
              | none => []
              | some v =>
                  [h2 "독자에게 주는 가치"]
                  ++ (if v.time_saved ≠ "" then
                        [bullet ("절약 시간: " ++ v.time_saved)] else [])
                  ++ (if v.money_saved ≠ "" then
                        [bullet ("비용 절감: " ++ v.money_saved)] else [])
                  ++ (if v.mistakes_prevented ≠ "" then
                        [bullet ("방지 실수: " ++ v.mistakes_prevented)] else [])))

/-- The HWPX file name (lines 725–726). -/
def hwpxFilename (d : Ebook) : String := sanitizeTitle d.book_title ++ ".hwpx"

end Hwpx

namespace Docx

/-! ## The DOCX generator's page estimator
(`EbookDocxGenerator.generate`, pdf_generator.py lines 989–1015).

This estimation caller does not wrap lines at all: it charges a flat
`CHARS_PER_PAGE = 600` characters per page. -/

/-- `CHARS_PER_PAGE` (line 992). -/
def CHARS_PER_PAGE : ℕ := 600

/-- Page advance charged for one chapter body (line 1015):
`max(1, len(content) // CHARS_PER_PAGE)`. -/
def chapterAdvance (content : String) : ℕ :=
  max 1 (content.length / CHARS_PER_PAGE)

/-- `est_page` after the front matter (lines 993–1006): cover + TOC start,
TOC pages by chapter count, prologue by character count, one page for the
value summary if present. -/
def estFront (d : Ebook) : ℕ :=
  let n := d.chapters.length
  let est := 2 + max 1 ((n + 15) / 16)
  let est := if pyTruthy d.prologueStr && pyTruthy (pyStrip d.prologueStr) then
      est + max 1 (d.prologueStr.length / CHARS_PER_PAGE) else est
  if d.analysis.isSome then est + 1 else est

/-- The recording loop (lines 1009–1015). -/
def estChapterLoop (chapters : List ChapterMeta) :
    List ChapterContent → ℕ → ℕ → List (ℕ × ℕ)
  | [], _, _ => []
  | chd :: rest, i, est =>
      (chapterNumAt chapters i, est) ::
        estChapterLoop chapters rest (i + 1) (est + chapterAdvance chd.content)

/-- `chapter_est_pages` as the ordered recording list. -/
def chapterEstPages (d : Ebook) : List (ℕ × ℕ) :=
  estChapterLoop d.chapters d.chapters_content 0 (estFront d)

end Docx

namespace Pptx

/-! ## The slide-deck generator (`EbookPptxGenerator`, pdf_generator.py
lines 1150–1724). -/

/-- `str.rfind(sub)` on character lists: highest start index of `sub`,
`-1` when absent. -/
def pyRfind (sub l : List Char) : ℤ :=
  match ((List.range (l.length + 1)).reverse).find?
      (fun i => i + sub.length ≤ l.length && (l.drop i).take sub.length = sub) with
  | some i => (i : ℤ)
  | none => -1

/-- The sentence-ending suffixes scanned by `_natural_trim` (lines 1214–1215). -/
def trimEndings : List String :=
  ["합니다", "됩니다", "습니다", "입니다", "하세요",
   "이다", "한다", "된다", "있다", "없다", "이며", "하며", "하고"]

/-- `_natural_trim(text, max_chars)` (lines 1209–1230): cut at a natural
Korean sentence ending inside `text[:max_chars+10]`, else at a space, else
hard at `max_chars`. -/
def naturalTrim (text : String) (maxChars : ℕ) : String :=
  if text.length ≤ maxChars then text
  else
    let chunk := text.data.take (maxChars + 10)
    let best : ℤ := foldLoop trimEndings 0 fun best e =>
      let p := pyRfind e.data chunk
      if p > (maxChars / 3 : ℕ) then
        let ep := p + e.length
        if ep ≤ (maxChars : ℤ) + 10 ∧ ep > best then ep else best
      else best
    if best > (maxChars / 3 : ℕ) then ⟨text.data.take best.toNat⟩
    else
      let p := pyRfind [' '] (text.data.take maxChars)
      if p > (maxChars / 2 : ℕ) then ⟨text.data.take p.toNat⟩
      else ⟨text.data.take maxChars⟩

/-- `dropWhile` never lengthens a list (termination helper). -/
theorem dropWhileLenLe (p : α → Bool) (l : List α) :
    (l.dropWhile p).length ≤ l.length := by
  induction l with
  | nil => simp [List.dropWhile]
  | cons a l ih =>
      by_cases h : p a
      · simp only [List.dropWhile, h]
        exact le_trans ih (Nat.le_succ _)
      · simp [List.dropWhile, h]

/-- `re.split(r'(?<=[.!?。])\s+', line)`: split at whitespace runs whose
preceding character ends a sentence. -/
def sentenceSplitGo : List Char → List Char → List (List Char)
  | cur, [] => [cur]
  | cur, c :: rest =>
      if isPySpace c ∧ (cur.getLast? = some '.' ∨ cur.getLast? = some '!'
          ∨ cur.getLast? = some '?' ∨ cur.getLast? = some '。') then
        cur :: sentenceSplitGo [] (rest.dropWhile isPySpace)
      else sentenceSplitGo (cur ++ [c]) rest
termination_by _ l => l.length
decreasing_by
  · exact Nat.lt_succ_of_le (dropWhileLenLe _ _)
  · exact Nat.lt_succ_self _

/-- String wrapper for the sentence splitter. -/
def sentenceSplit (s : String) : List String :=
  (sentenceSplitGo [] s.data).map (⟨·⟩)

/-- `_extract_bullets(lines, max_bullets, max_chars)` (lines 1232–1267):
glyph bullets, numbered items, else the first complete sentence of a long
enough paragraph line; stops once `max_bullets` are collected. -/
def extractLoop (maxBullets maxChars : ℕ) :
    List String → List String → List String
  | [], acc => acc
  | rawLine :: rest, acc =>
      let line := pyStrip rawLine
      if line = "" ∨ line.length < 4 then extractLoop maxBullets maxChars rest acc
      else
        match bulletMatchPptx line.data with
        | some g =>
            let b := naturalTrim (pyStrip ⟨g⟩) maxChars
            let acc := if b ≠ "" then acc ++ [b] else acc
            if maxBullets ≤ acc.length then acc
            else extractLoop maxBullets maxChars rest acc
        | none =>
          match numListMatchStr line with
          | some (_, t) =>
              let b := naturalTrim (pyStrip t) maxChars
              let acc := if b ≠ "" then acc ++ [b] else acc
              if maxBullets ≤ acc.length then acc
              else extractLoop maxBullets maxChars rest acc
          | none =>
              let acc :=
                if 8 ≤ line.length then
                  match (sentenceSplit line).findSome? (fun part =>
                      let part := pyStrip part
                      if 6 ≤ part.length then some (naturalTrim part maxChars)
                      else none) with
                  | some b => acc ++ [b]
                  | none => acc
                else acc
              if maxBullets ≤ acc.length then acc
              else extractLoop maxBullets maxChars rest acc

/-- `_extract_bullets` with its fallback bullet. -/
def extractBullets (lines : List String) (maxBullets maxChars : ℕ) :
    List String :=
  let bs := extractLoop maxBullets maxChars lines []
  if bs = [] then ["핵심 내용을 확인하세요."] else bs

/-- Section kinds of `_parse_sections` (lines 1270–1311). -/
inductive SecType
  | intro | sectionT | highlight | summary | checklist
deriving DecidableEq, Repr

/-- One parsed section: title, kind, collected lines. -/
structure Sec where
  title : Option String
  stype : SecType
  lines : List String
deriving DecidableEq, Repr

/-- Section-kind classification of a `== title ==` heading
(lines 1286–1293). -/
def classifyTitle (t : String) : SecType :=
  if pyIn "핵심 요약" t || pyStrip t = "요약" then .summary
  else if pyIn "체크리스트" t || (pyIn "실행" t && pyIn "리스트" t) then .checklist
  else if pyIn "핵심 포인트" t || pyIn "실전 팁" t then .highlight
  else .sectionT

/-- `any(l for l in cur['lines'] if l.strip())` — flush guard. -/
def anyNonblank (lines : List String) : Bool :=
  lines.any fun l => pyStrip l ≠ ""

/-- The parsing loop of `_parse_sections`: a section is flushed only if it
has a non-blank line; a `[label]` line whose label mentions
핵심 / 팁 / 포인트 starts a highlight section seeded with the rest of the
line, any other bracketed line stays an ordinary content line. -/
def parseLoop : List String → Sec → List Sec
  | [], cur => if anyNonblank cur.lines then [cur] else []
  | raw :: rest, cur =>
      let line := pyStrip raw
      match headingMatchStr line with
      | some title =>
          (if anyNonblank cur.lines then [cur] else [])
            ++ parseLoop rest ⟨some title, classifyTitle title, []⟩
      | none =>
        match bracketMatchStr line with
        | some (lbl, rest2) =>
            if pyIn "핵심" lbl || pyIn "팁" lbl || pyIn "포인트" lbl then
              let rest2 := pyStrip rest2
              (if anyNonblank cur.lines then [cur] else [])
                ++ parseLoop rest
                    ⟨some lbl, .highlight, if rest2 ≠ "" then [rest2] else []⟩
            else parseLoop rest { cur with lines := cur.lines ++ [line] }
        | none => parseLoop rest { cur with lines := cur.lines ++ [line] }

/-- `_parse_sections(content)`. -/
def parseSections (content : String) : List Sec :=
  parseLoop (content.splitOn "\n") ⟨none, .intro, []⟩

/-- Number of TOC slides (`generate`, lines 1655–1657): one per non-empty
half of the chapter list. -/
def tocCount (chapters : List ChapterMeta) : ℕ :=
  let half := (chapters.length + 1) / 2
  (if chapters.take half ≠ [] then 1 else 0)
    + (if chapters.drop half ≠ [] then 1 else 0)

/-- `slide_idx` after cover, TOC and optional prologue slide
(lines 1653–1662). -/
def frontSlides (d : Ebook) : ℕ :=
  let idx := 1 + tocCount d.chapters
  if pyTruthy d.prologueStr && pyTruthy (pyStrip d.prologueStr) then idx + 1
  else idx

/-- The slide-number recording loop (lines 1665–1671): each chapter
records `slide_idx + 1` and advances by the intro slide plus one slide per
parsed section. -/
def slideNumLoop (chapters : List ChapterMeta) :
    List ChapterContent → ℕ → ℕ → List (ℕ × ℕ)
  | [], _, _ => []
  | chd :: rest, i, idx =>
      (chapterNumAt chapters i, idx + 1) ::
        slideNumLoop chapters rest (i + 1)
          (idx + 1 + (parseSections chd.content).length)

/-- `chapter_slide_nums` as the ordered recording list. -/
def chapterSlideNums (d : Ebook) : List (ℕ × ℕ) :=
  slideNumLoop d.chapters d.chapters_content 0 (frontSlides d)

/-- Total number of slides the deck receives (`generate`, lines 1673–1715):
cover, TOC slides, optional prologue, per chapter an intro slide plus one
slide per section, optional epilogue. -/
def slideCount (d : Ebook) : ℕ :=
  1 + tocCount d.chapters
    + (if pyTruthy d.prologueStr && pyTruthy (pyStrip d.prologueStr) then 1 else 0)
    + d.chapters_content.foldl
        (fun acc chd => acc + 1 + (parseSections chd.content).length) 0
    + (if pyTruthy d.epilogueStr && pyTruthy (pyStrip d.epilogueStr) then 1 else 0)

/-- The PPTX file name (lines 1641–1642). -/
def pptxFilename (d : Ebook) : String := sanitizeTitle d.book_title ++ ".pptx"

end Pptx

namespace Pdf

/-! ## The fixed-page (PDF) renderer (`EbookPDFGenerator`, pdf_generator.py
lines 173–906).

Only the cursor state matters for page numbers, so the embedding threads
`(self.y, canvas page number, self._page_drawn)` through every drawing
routine and mirrors each routine's `self.y -= …`, `_check_page_break`,
`_mark_drawn` and `showPage` calls line by line; pure drawing calls
(`setFont`, `drawString`, `rect`, …) move no state and are omitted.  The
page-number texts and dot leaders of `_draw_toc` (lines 557–586) likewise
touch only glyphs, never the cursor, which is why the render state takes
no table-of-contents page map. -/

/-- A4 width in points: 210 mm · 72/25.4. -/
def pageW : ℚ := 75600 / 127

/-- A4 height in points: 297 mm · 72/25.4. -/
def pageH : ℚ := 106920 / 127

/-- The layout constants read from the configuration in `__init__`
(lines 176–186). -/
structure PCfg where
  fs : ℚ   -- pdf_font_size
  hs : ℚ   -- pdf_heading_size
  ss : ℚ   -- pdf_subheading_size
  lsp : ℚ  -- pdf_line_spacing
  mt : ℚ   -- pdf_margin_top
  mb : ℚ   -- pdf_margin_bottom
  ml : ℚ   -- pdf_margin_left
  mr : ℚ   -- pdf_margin_right
deriving Repr

/-- `config.DEFAULT_CONFIG`: 11 / 16 / 13 / 1.6 / 72 / 72 / 60 / 60. -/
def defaultPCfg : PCfg := ⟨11, 16, 13, 8/5, 72, 72, 60, 60⟩

/-- `self.content_width` (line 186). -/
def contentWidth (c : PCfg) : ℚ := pageW - c.ml - c.mr

/-- The cursor reset value `self.page_height - self.margin_top`. -/
def topY (c : PCfg) : ℚ := pageH - c.mt

/-- Mutable render state: vertical cursor, canvas page number (ReportLab
starts at 1 and `showPage` increments), and the `_page_drawn` flag. -/
structure RState where
  y : ℚ
  page : ℕ
  drawn : Bool
deriving Repr, DecidableEq

/-- `stringWidth(s, font, size)`: per-glyph advance widths (1/1000 em,
given by the table `cw`) scaled by the font size. -/
def stringWidth (cw : Char → ℚ) (s : List Char) (size : ℚ) : ℚ :=
  size * (s.map cw).sum / 1000

/-- The character loop of `_wrap_text_by_width` (lines 230–251), with its
English-word-boundary backtrack over the last 11 characters. -/
def wrapGo (cw : Char → ℚ) (size maxW : ℚ) :
    List Char → List Char → List (List Char) → List (List Char)
  | [], cur, lines => if cur ≠ [] then lines ++ [cur] else lines
  | ch :: rest, cur, lines =>
      let test := cur ++ [ch]
      if stringWidth cw test size > maxW ∧ cur ≠ [] then
        let lastSpace := Pptx.pyRfind [' '] cur
        if lastSpace > max 0 ((cur.length : ℤ) - 12) then
          wrapGo cw size maxW rest
            (cur.drop (lastSpace.toNat + 1) ++ [ch])
            (lines ++ [cur.take lastSpace.toNat])
        else
          wrapGo cw size maxW rest [ch] (lines ++ [cur])
      else wrapGo cw size maxW rest test lines

/-- `_wrap_text_by_width(c, text, font_size, max_width)`. -/
def wrapTextByWidth (cw : Char → ℚ) (text : String) (size maxW : ℚ) :
    List (List Char) :=
  if text = "" then []
  else
    let ls := wrapGo cw size maxW text.data [] []
    if ls = [] then [text.data] else ls

/-- `_safe_text` (lines 137–152): map emoji / unsupported code points to a
space, keep everything else. -/
def safeChar (c : Char) : Char :=
  let cp := c.toNat
  if cp < 0x10000 ∧ ¬(0x1F000 ≤ cp ∧ cp ≤ 0x1FFFF)
      ∧ ¬(0x2600 ≤ cp ∧ cp ≤ 0x27BF)
      ∧ ¬(0xFE00 ≤ cp ∧ cp ≤ 0xFE0F)
      ∧ ¬(0x200B ≤ cp ∧ cp ≤ 0x200D) then c
  else ' '

/-- `_safe_text(text)`. -/
def safeText (s : String) : String :=
  if s = "" then "" else ⟨s.data.map safeChar⟩

/-- `_new_page` (lines 205–210): `showPage`, reset cursor and flag. -/
def newPage (c : PCfg) (s : RState) : RState :=
  { s with page := s.page + 1, y := topY c, drawn := false }

/-- `_check_page_break(c, needed_height)` (lines 221–225). -/
def checkPageBreak (c : PCfg) (needed : ℚ) (s : RState) : RState :=
  if s.y - needed < c.mb then newPage c s else s

/-- `_end_page_if_drawn` (lines 212–219): `showPage` only when the page
holds content, then reset cursor and flag. -/
def endPageIfDrawn (c : PCfg) (s : RState) : RState :=
  let hasContent := s.drawn || decide (s.y < topY c - 8)
  { s with page := if hasContent then s.page + 1 else s.page,
           y := topY c, drawn := false }

/-- The manual `self.y = …; self._page_drawn = False` reset done before
each section of `_render_pages`. -/
def resetTop (c : PCfg) (s : RState) : RState :=
  { s with y := topY c, drawn := false }

/-- `_draw_paragraph(c, text, font_size, color, indent)` (lines 280–314):
wrap each input line at the real string width, breaking pages per wrapped
line, with a half line for blank input lines and a 0.15-line margin after
the paragraph. -/
def drawParagraph (cw : Char → ℚ) (c : PCfg) (text : String)
    (fsz indent : ℚ) (s : RState) : RState :=
  let text := safeText text
  if pyStrip text = "" then s
  else
    let avail := contentWidth c - indent
    let lh := fsz * c.lsp
    let s := foldLoop (text.splitOn "\n") s fun s inputLine =>
      let stripped := pyStrip inputLine
      if stripped = "" then { s with y := s.y - lh * (1/2) }
      else
        foldLoop (wrapTextByWidth cw stripped fsz avail) s fun s _ =>
          let s := checkPageBreak c (lh + 4) s
          { s with y := s.y - lh, drawn := true }
    { s with y := s.y - lh * (15/100) }

/-- Cursor behaviour of `_draw_toc` (lines 505–591).  The per-entry page
number / dot leader (lines 557–586) and the entry title wrapping
(lines 562–567) are drawing-only: every entry advances the cursor by the
same fixed amounts whether or not `chapter_pages` holds numbers. -/
def drawToc (c : PCfg) (chapters : List ChapterMeta) (s : RState) : RState :=
  let s := { s with y := s.y - 46, drawn := true }
  let s := { s with y := s.y - 16 }
  let step := fun (acc : RState × Option String) (ich : ℕ × ChapterMeta) =>
    let (s, cur) := acc
    let (i, ch) := ich
    let s := checkPageBreak c 40 s
    let (s, cur) :=
      if some ch.phase ≠ cur then
        let s := if 0 < i then { s with y := s.y - 8 } else s
        let s := { s with y := s.y - 16 }
        ({ s with y := s.y - 6, drawn := true }, some ch.phase)
      else (s, cur)
    let s := checkPageBreak c 28 s
    ({ s with y := s.y - 22, drawn := true }, cur)
  let (s, _) := chapters.enum.foldl step (s, none)
  { s with y := s.y - 10 }

/-- Shared cursor behaviour of `_draw_prologue` (lines 653–666) and
`_draw_epilogue` (lines 671–684), which are cursor-identical: header bar
(`y -= 52`), divider (`y -= 20`), then the body paragraph at the base font
size. -/
def drawHeaderedText (cw : Char → ℚ) (c : PCfg) (text : String)
    (s : RState) : RState :=
  let s := { s with y := s.y - 52 }
  let s := { s with y := s.y - 20, drawn := true }
  drawParagraph cw c text c.fs 0 s

/-- `_draw_analysis_summary` (lines 596–648). -/
def drawAnalysis (cw : Char → ℚ) (c : PCfg) (a : Option AnalysisD)
    (s : RState) : RState :=
  match a with
  | none => s
  | some a =>
      let s := { s with y := s.y - 52, drawn := true }
      let items := [a.problem_solved.time, a.problem_solved.money,
                    a.problem_solved.emotion]
      let s := foldLoop items s fun s val =>
        if val = "" then s
        else
          let s := checkPageBreak c 60 s
          let s := { s with y := s.y - 20 }
          let s := drawParagraph cw c val c.fs 10 s
          { s with y := s.y - 8, drawn := true }
      if a.why_pay = "" then s
      else
        let s := checkPageBreak c 60 s
        let s := { s with y := s.y - 10 }
        let s := { s with y := s.y - 16 }
        let s := { s with y := s.y - 20 }
        let s := drawParagraph cw c a.why_pay c.fs 10 s
        { s with drawn := true }

/-- `_draw_chapter_start` (lines 689–795).  `img` is true when an image
URL is present for this chapter and both `download_image` and `drawImage`
succeed; the drawn image then consumes `min(160, y - mb - 80) + 15`
points if that height exceeds 60. -/
def drawChapterStart (cw : Char → ℚ) (c : PCfg) (ch : ChapterMeta)
    (img : Bool) (s : RState) : RState :=
  let title := safeText ch.title
  let before := safeText ch.before_state
  let after := safeText ch.after_state
  let s := { s with y := s.y - 26, drawn := true }
  let s := { s with y := s.y - 22 }
  let s := foldLoop (wrapTextByWidth cw title c.hs (contentWidth c)) s
    fun s _ =>
      let s := checkPageBreak c (c.hs * (3/2)) s
      { s with y := s.y - c.hs * (14/10), drawn := true }
  let s := { s with y := s.y - 8 }
  let s := { s with y := s.y - 20 }
  let s :=
    if img then
      let imgH := min 160 (s.y - c.mb - 80)
      if 60 < imgH then { s with y := s.y - (imgH + 15), drawn := true }
      else s
    else s
  if before = "" ∧ after = "" then s
  else
    let boxH : ℚ := 14 + 14 * (22/10) * 2
    let s := checkPageBreak c (boxH + 20) s
    let s := { s with y := s.y - 10 }
    let s :=
      if before ≠ "" then
        let s := { s with y := s.y - 14 }
        let s := foldLoop ((wrapTextByWidth cw before 10 (contentWidth c - 20)).take 2)
          s fun s _ => { s with y := s.y - 14, drawn := true }
        { s with y := s.y - 4 }
      else s
    if after ≠ "" then
      let s := { s with y := s.y - 14 }
      foldLoop ((wrapTextByWidth cw after 10 (contentWidth c - 20)).take 2)
        s fun s _ => { s with y := s.y - 14, drawn := true }
    else s

/-- `_draw_chapter_content` (lines 800–858): blank spacer, `== … ==`
sub-heading, tip box for the six fixed labels (drawn as one paragraph
holding the whole line), else plain paragraph. -/
def drawChapterContent (cw : Char → ℚ) (c : PCfg) (content : String)
    (s : RState) : RState :=
  let content := safeText content
  if pyStrip content = "" then s
  else
    foldLoop (content.splitOn "\n") s fun s line =>
      let stripped := pyStrip line
      if stripped = "" then { s with y := s.y - c.fs * c.lsp * (4/10) }
      else if (headingMatchStr stripped).isSome then
        let s := checkPageBreak c 55 s
        let s := { s with y := s.y - 12 }
        { s with y := s.y - c.ss * (17/10), drawn := true }
      else if tipMatchPdf stripped then
        let tip := safeText stripped
        let s := checkPageBreak c 40 s
        let s := { s with y := s.y - 4 }
        let s := drawParagraph cw c tip c.fs 8 s
        { s with y := s.y - 6 }
      else drawParagraph cw c stripped c.fs 0 s

/-- `_draw_marketing_page` (lines 863–906). -/
def drawMarketing (cw : Char → ℚ) (c : PCfg) (m : Option MarketingD)
    (s : RState) : RState :=
  match m with
  | none => s
  | some m =>
      let s := { s with y := s.y - 50, drawn := true }
      let s :=
        if m.sales_copy ≠ "" then
          let s := { s with y := s.y - 18 }
          let s := drawParagraph cw c m.sales_copy c.fs 12 s
          { s with y := s.y - 20 }
        else s
      match m.value_summary with
      | none => s
      | some v =>
          let s := { s with y := s.y - 20, drawn := true }
          foldLoop [("시간 절약", v.time_saved), ("비용 절감", v.money_saved),
           ("실수 방지", v.mistakes_prevented)] s
            fun s lv =>
              if lv.2 = "" then s
              else
                let s := checkPageBreak c 30 s
                drawParagraph cw c ("• " ++ lv.1 ++ ": " ++ lv.2) 10 0 s

/-- The chapter loop of `_render_pages` (lines 350–365): reset, record
`(i+1, page)` into `chapter_pages`, chapter-start page(s), end page,
reset, chapter body, end page.  Returns the final state and the ordered
recordings. -/
def renderChapterLoop (cw : Char → ℚ) (c : PCfg) (skip : Bool) :
    List ChapterContent → List Bool → ℕ → RState → RState × List (ℕ × ℕ)
  | [], _, _, s => (s, [])
  | chd :: rest, imgs, i, s =>
      let img := !skip && imgs.headD false
      let s := resetTop c s
      let entry := (i + 1, s.page)
      let s := drawChapterStart cw c chd.chapter img s
      let s := endPageIfDrawn c s
      let s := resetTop c s
      let s := drawChapterContent cw c chd.content s
      let s := endPageIfDrawn c s
      let res := renderChapterLoop cw c skip rest (imgs.drop 1) (i + 1) s
      (res.1, entry :: res.2)

/-- `_render_pages(c, ebook_data, skip_images)` (lines 319–378): cover
(one unconditional `showPage`), TOC, optional prologue, value summary,
chapters, optional epilogue, marketing appendix.  Returns the final state
and the `chapter_pages` recordings of this pass. -/
def renderPages (cw : Char → ℚ) (c : PCfg) (d : Ebook) (skip : Bool)
    (s0 : RState) : RState × List (ℕ × ℕ) :=
  -- 1. 표지 (cursor untouched by `_draw_cover`, then `showPage`)
  let s := { s0 with page := s0.page + 1 }
  -- 2. 목차
  let s := endPageIfDrawn c (drawToc c d.chapters (resetTop c s))
  -- 3. 프롤로그
  let s :=
    if pyTruthy d.prologueStr && pyTruthy (pyStrip d.prologueStr) then
      endPageIfDrawn c (drawHeaderedText cw c d.prologueStr (resetTop c s))
    else s
  -- 4. 가치 요약
  let s := endPageIfDrawn c (drawAnalysis cw c d.analysis (resetTop c s))
  -- 5. 챕터들
  let res :=
    renderChapterLoop cw c skip d.chapters_content d.chapter_images 0 s
  let s := res.1
  -- 6. 에필로그
  let s :=
    if pyTruthy d.epilogueStr && pyTruthy (pyStrip d.epilogueStr) then
      endPageIfDrawn c (drawHeaderedText cw c d.epilogueStr (resetTop c s))
    else s
  -- 7. 마케팅 부록
  let s := endPageIfDrawn c (drawMarketing cw c d.marketing (resetTop c s))
  (s, res.2)

/-- The state a pass starts from (`generate`, lines 393–394 / 401–402): a
fresh canvas at page 1, cursor at the top, nothing drawn. -/
def initState (c : PCfg) : RState := ⟨topY c, 1, false⟩

/-- The `chapter_pages` recordings of one pass of `generate`
(`skip = true` is the first, image-skipping pass). -/
def passRecords (cw : Char → ℚ) (c : PCfg) (d : Ebook) (skip : Bool) :
    List (ℕ × ℕ) :=
  (renderPages cw c d skip (initState c)).2

/-- Final render state of one pass. -/
def passFinal (cw : Char → ℚ) (c : PCfg) (d : Ebook) (skip : Bool) : RState :=
  (renderPages cw c d skip (initState c)).1

/-- Page number on which positional chapter `k`'s start heading is emitted
in a pass (the page current when `_draw_chapter_start` runs). -/
def headingPage (cw : Char → ℚ) (c : PCfg) (d : Ebook) (skip : Bool)
    (k : ℕ) : ℕ :=
  ((passRecords cw c d skip).getD k (0, 0)).2

/-- The page numbers printed in the rendered table of contents
(`_draw_toc`, lines 523–558): row `i` looks up
`chapter_pages.get(ch.get('chapter_num', i+1))` — nothing is printed when
the map is empty (first pass) or the key is missing. -/
def tocPrintedNums (d : Ebook) (map : List (ℕ × ℕ)) : List (Option ℕ) :=
  d.chapters.enum.map fun ich =>
    if map = [] then none
    else dictGet map (ich.2.chapter_num.getD (ich.1 + 1))

/-- `generate` (lines 380–406): pass 1 collects `chapter_pages` with
images skipped; pass 2 renders for real.  The TOC of pass 2 is drawn
before any chapter renders, so it prints pass 1's recordings. -/
def generateTocNums (cw : Char → ℚ) (c : PCfg) (d : Ebook) :
    List (Option ℕ) :=
  tocPrintedNums d (passRecords cw c d true)

/-- The PDF file name (lines 384–385). -/
def pdfFilename (d : Ebook) : String := sanitizeTitle d.book_title ++ ".pdf"

end Pdf

namespace App

/-! ## The multi-format generation entry point
(`start_generation.run_generation`, app.py lines 189–234).

Each requested format runs inside its own `try/except`: on success the
produced file name is stored under the format's key, on any exception the
key is set to `None`, and control falls through to the next format
either way. -/

/-- The four generators, identified by their `output_formats` keys. -/
inductive Fmt
  | pdf | docx | pptx | hwpx
deriving DecidableEq, Repr

/-- A generator run either produces a file name or raises (any exception,
carried as a message). -/
def outcome (r : Except String String) : Option String :=
  match r with
  | .ok f => some f
  | .error _ => none

/-- One `ebook_data['generated_files'][key] = value` assignment. -/
def setKey (m : String → Option (Option String)) (k : String)
    (v : Option String) : String → Option (Option String) :=
  fun q => if q = k then some v else m q

/-- The `generated_files` map after the four guarded blocks of
`run_generation` (lines 189–234), as a function from format key to
`none` (key absent — format not requested) or `some v` with `v` the
recorded artifact (`None` on exception).  `runs` gives each format
generator's outcome on this document. -/
def generatedFiles (runs : Fmt → Except String String)
    (requested : List String) : String → Option (Option String) :=
  let m : String → Option (Option String) := fun _ => none
  let m := if requested.contains "pdf" then setKey m "pdf" (outcome (runs .pdf)) else m
  let m := if requested.contains "docx" then setKey m "docx" (outcome (runs .docx)) else m
  let m := if requested.contains "pptx" then setKey m "pptx" (outcome (runs .pptx)) else m
  let m := if requested.contains "hwpx" then setKey m "hwpx" (outcome (runs .hwpx)) else m
  m

end App

/-! ## Concrete fixtures used by the closed evaluations below -/

/-- The uniform full-width glyph table: every glyph advances one em
(1000/1000), the width a CJK-dominant font assigns to Hangul syllables —
and exactly the heuristic the specification bakes into
`estimateLineCount`. -/
def cw0 : Char → ℚ := fun _ => 1000

/-- An inhabitant for `List.getD` defaults. -/
def dfltChapter : ChapterContent := ⟨⟨none, "", "", "", "", ""⟩, ""⟩

/-- Two chapters whose display `chapter_num`s are swapped relative to
their positions (the spec's data model allows this: the display ordinal
need not equal index+1). -/
def metaA : ChapterMeta := ⟨some 2, "A", "p", "", "", ""⟩

/-- Second swapped-number chapter. -/
def metaB : ChapterMeta := ⟨some 1, "B", "p", "", "", ""⟩

/-- Document with swapped chapter numbers, no images. -/
def docSwapped : Ebook :=
  ⟨"t", "", [metaA, metaB], [⟨metaA, ""⟩, ⟨metaB, ""⟩],
   none, none, none, none, []⟩

/-- A 520-character chapter title (wraps to 18 lines of 29 full-width
glyphs at heading size 16 on the default A4 content width). -/
def longTitle : String := ⟨List.replicate 520 '가'⟩

/-- Chapter with the long title, a non-empty before-state box, and a
chapter image available. -/
def metaLong : ChapterMeta := ⟨some 1, longTitle, "p", "전", "", ""⟩

/-- Ordinary second chapter following the long-titled one. -/
def metaNext : ChapterMeta := ⟨some 2, "B", "p", "", "", ""⟩

/-- Document whose first chapter draws an image in the second pass. -/
def docImaged : Ebook :=
  ⟨"t", "", [metaLong, metaNext], [⟨metaLong, ""⟩, ⟨metaNext, ""⟩],
   none, none, none, none, [true]⟩

/-- Well-formed document: chapter numbers equal positions, no images. -/
def metaW1 : ChapterMeta := ⟨some 1, "A", "p", "", "", ""⟩

/-- Second well-formed chapter. -/
def metaW2 : ChapterMeta := ⟨some 2, "B", "p", "", "", ""⟩

/-- Document with positional chapter numbers and no images. -/
def docAligned : Ebook :=
  ⟨"t", "", [metaW1, metaW2], [⟨metaW1, ""⟩, ⟨metaW2, ""⟩],
   none, none, none, none, []⟩

namespace Pdf

/-- The visual block `_draw_chapter_content` (lines 800–858) emits for one
line of the (already `_safe_text`ed) chapter body: blank spacer,
sub-heading bar, tip box — drawn as a *single* paragraph holding the whole
bracketed line — or a plain paragraph.  Exactly one block per line. -/
inductive Block
  | blankSpacer
  | subheading (title : String)
  | tipBox (text : String)
  | para (text : String)
deriving DecidableEq, Repr

/-- Per-line classification of `_draw_chapter_content`, in source order:
blank, `== … ==`, the six-label tip pattern, else paragraph. -/
def chapterLineBlock (line : String) : Block :=
  let stripped := pyStrip line
  if stripped = "" then .blankSpacer
  else
    match headingMatchStr stripped with
    | some t => .subheading (safeText t)
    | none =>
      if tipMatchPdf stripped then .tipBox (safeText stripped)
      else .para stripped

end Pdf

/-- 1199 full-width characters (29 characters short of 43·28+1). -/
def chars1199 : String := ⟨List.replicate 1199 '가'⟩

/-- 1204 full-width characters: same spec line count as `chars1199` at the
default constants, but one more 600-character page for the DOCX estimator. -/
def chars1204 : String := ⟨List.replicate 1204 '가'⟩

/-! # Theorems -/

/-! ## Helper lemmas about the regular-expression models -/

/-- A line matched by the bracket pattern starts with `[`. -/
theorem bracketMatch_head {l : List Char} {x}
    (h : bracketMatch l = some x) : ∃ t, l = '[' :: t := by
  cases l with
  | nil => simp [bracketMatch] at h
  | cons a rest =>
      by_cases ha : a = '['
      · exact ⟨rest, by rw [ha]⟩
      · simp [bracketMatch, ha] at h

/-- The heading pattern needs a leading `=`. -/
theorem headingMatch_none_of_head {a : Char} (l : List Char) (h : a ≠ '=') :
    headingMatch (a :: l) = none := by
  simp [headingMatch, List.takeWhile, h]

/-- The bracket pattern needs a leading `[`. -/
theorem bracketMatch_none_of_head {a : Char} (l : List Char) (h : a ≠ '[') :
    bracketMatch (a :: l) = none := by
  simp [bracketMatch, h]

/-- A line matched by the numbered-item pattern starts with a digit. -/
theorem numListMatch_head {l : List Char} {x}
    (h : numListMatch l = some x) : ∃ a t, l = a :: t ∧ a.isDigit = true := by
  cases l with
  | nil => simp [numListMatch] at h
  | cons a rest =>
      by_cases ha : a.isDigit
      · exact ⟨a, rest, rfl, ha⟩
      · simp [numListMatch, List.takeWhile, ha] at h

/-- A digit is none of the HWPX bullet glyphs. -/
theorem not_glyph_of_digit {a : Char} (ha : a.isDigit = true) :
    (a = '-' || a = '•' || a = '●' || a = '▶' || a = '►' || a = '✓') = false := by
  by_contra hct
  have h6 := Bool.of_not_eq_false hct
  simp only [Bool.or_eq_true, decide_eq_true_eq] at h6
  rcases h6 with ((((h | h) | h) | h) | h) | h <;> subst h <;>
    exact absurd ha (by decide)

/-- Digits start no HWPX bullet line. -/
theorem bulletMatchHwpx_false_of_digit {a : Char} (ha : a.isDigit = true)
    (l : List Char) : bulletMatchHwpx (a :: l) = false := by
  cases l with
  | nil => rfl
  | cons w t =>
      simp only [bulletMatchHwpx, Bool.and_eq_false_imp]
      intro hglyph
      rw [not_glyph_of_digit ha] at hglyph
      exact absurd hglyph (by decide)

/-! ## C10 — XML escaping of user text in `section0.xml` -/

/-- `<` survives no character's escape. -/
theorem lt_not_mem_escChar (c : Char) : '<' ∉ escChar c := by
  unfold escChar
  split_ifs with h1 h2 h3
  · simp
  · simp
  · simp
  · simp only [List.mem_singleton]
    exact fun hc => h2 hc.symm

/-- `>` survives no character's escape. -/
theorem gt_not_mem_escChar (c : Char) : '>' ∉ escChar c := by
  unfold escChar
  split_ifs with h1 h2 h3
  · simp
  · simp
  · simp
  · simp only [List.mem_singleton]
    exact fun hc => h3 hc.symm

/-- No raw `<` in escaped text. -/
theorem esc_no_lt (l : List Char) : '<' ∉ l.flatMap escChar := by
  induction l with
  | nil => simp
  | cons c l ih =>
      simp only [List.flatMap_cons, List.mem_append]
      rintro (h | h)
      · exact lt_not_mem_escChar c h
      · exact ih h

/-- No raw `>` in escaped text. -/
theorem esc_no_gt (l : List Char) : '>' ∉ l.flatMap escChar := by
  induction l with
  | nil => simp
  | cons c l ih =>
      simp only [List.flatMap_cons, List.mem_append]
      rintro (h | h)
      · exact gt_not_mem_escChar c h
      · exact ih h

/-- Unfolding equation for `ampEntitiesOnly` on a cons cell. -/
theorem ampEntitiesOnly_cons (c : Char) (rest : List Char) :
    ampEntitiesOnly (c :: rest) =
      if c = '&' then
        ((rest.take 4 = ['a', 'm', 'p', ';'] ∧ ampEntitiesOnly (rest.drop 4)) ∨
         (rest.take 3 = ['l', 't', ';'] ∧ ampEntitiesOnly (rest.drop 3)) ∨
         (rest.take 3 = ['g', 't', ';'] ∧ ampEntitiesOnly (rest.drop 3)))
      else ampEntitiesOnly rest := by
  rw [ampEntitiesOnly.eq_def]

/-- The empty text is trivially entity-clean. -/
theorem ampEntitiesOnly_nil : ampEntitiesOnly [] := by
  rw [ampEntitiesOnly.eq_def]
  trivial

/-- Every `&` in escaped text opens one of the three XML entities. -/
theorem esc_ampOk (l : List Char) : ampEntitiesOnly (l.flatMap escChar) := by
  induction l with
  | nil => exact ampEntitiesOnly_nil
  | cons c l ih =>
      rw [List.flatMap_cons]
      by_cases h1 : c = '&'
      · subst h1
        show ampEntitiesOnly ('&' :: 'a' :: 'm' :: 'p' :: ';' :: l.flatMap escChar)
        rw [ampEntitiesOnly_cons, if_pos rfl]
        exact Or.inl ⟨rfl, ih⟩
      · by_cases h2 : c = '<'
        · subst h2
          show ampEntitiesOnly ('&' :: 'l' :: 't' :: ';' :: l.flatMap escChar)
          rw [ampEntitiesOnly_cons, if_pos rfl]
          exact Or.inr (Or.inl ⟨rfl, ih⟩)
        · by_cases h3 : c = '>'
          · subst h3
            show ampEntitiesOnly ('&' :: 'g' :: 't' :: ';' :: l.flatMap escChar)
            rw [ampEntitiesOnly_cons, if_pos rfl]
            exact Or.inr (Or.inr ⟨rfl, ih⟩)
          · have he : escChar c = [c] := by
              unfold escChar
              rw [if_neg h1, if_neg h2, if_neg h3]
            rw [he, List.singleton_append, ampEntitiesOnly_cons, if_neg h1]
            exact ih

/-- C10: every user-supplied text placed inside an `<hp:t>` element of the
generated `section0.xml` passes through `_esc` (`saxutils.escape`) first —
the element body is exactly `esc text` — and the escaped text contains no
raw `<` or `>`, while every `&` in it opens one of the entities `&amp;`,
`&lt;`, `&gt;`; so user text can never break the well-formedness of the
emitted XML. -/
theorem claim_C10_hwpx_text_escaped (text : String) :
    Hwpx.hpT text = "<hp:t>" ++ esc text ++ "</hp:t>"
      ∧ '<' ∉ (esc text).data
      ∧ '>' ∉ (esc text).data
      ∧ ampEntitiesOnly (esc text).data :=
  ⟨rfl, esc_no_lt text.data, esc_no_gt text.data, esc_ampOk text.data⟩

/-! ## C8 — per-format failure isolation in the generation entry point -/

/-- C8: in the multi-format entry point, each requested format's entry in
`generated_files` is `None` exactly when its own generator raised and the
produced file name otherwise; the entry depends only on that format's own
run, so no format's exception prevents any other requested format from
running and recording its artifact. -/
theorem claim_C8_format_failures_isolated
    (runs : App.Fmt → Except String String) (requested : List String) :
    (App.generatedFiles runs requested "pdf"
        = if requested.contains "pdf" then some (App.outcome (runs .pdf)) else none)
    ∧ (App.generatedFiles runs requested "docx"
        = if requested.contains "docx" then some (App.outcome (runs .docx)) else none)
    ∧ (App.generatedFiles runs requested "pptx"
        = if requested.contains "pptx" then some (App.outcome (runs .pptx)) else none)
    ∧ (App.generatedFiles runs requested "hwpx"
        = if requested.contains "hwpx" then some (App.outcome (runs .hwpx)) else none) := by
  unfold App.generatedFiles
  refine ⟨?_, ?_, ?_, ?_⟩ <;> split_ifs <;> simp_all [App.setKey]

/-! ## C9 — file-name sanitization -/

/-- C9 counterexample: for the title `" 퇴근"` the produced PDF file name
is `"퇴근.pdf"`, but the claim's transformation (strip the disallowed
characters, then truncate — with no final whitespace strip) yields the
stem `" 퇴근"`, i.e. the file name `" 퇴근.pdf"`.  The code additionally
applies `.strip()` after truncating. -/
theorem claim_C9_counterexample :
    Pdf.pdfFilename { docAligned with book_title := " 퇴근" } = "퇴근.pdf"
      ∧ claimedTitleStem " 퇴근" ++ ".pdf" = " 퇴근.pdf"
      ∧ ("퇴근.pdf" : String) ≠ " 퇴근.pdf" := by
  refine ⟨?_, ?_, ?_⟩ <;> decide

/-- The strip helper never lengthens a string. -/
theorem pyStripList_length_le (l : List Char) :
    (pyStripList l).length ≤ l.length := by
  unfold pyStripList
  calc (((l.dropWhile isPySpace).reverse.dropWhile isPySpace).reverse).length
      = ((l.dropWhile isPySpace).reverse.dropWhile isPySpace).length := by
        rw [List.length_reverse]
    _ ≤ (l.dropWhile isPySpace).reverse.length := Pptx.dropWhileLenLe _ _
    _ = (l.dropWhile isPySpace).length := by rw [List.length_reverse]
    _ ≤ l.length := Pptx.dropWhileLenLe _ _

/-- C9 (amended): the file-name stem is the title with every character
outside {word characters, Hangul, whitespace, hyphen} removed, truncated
to at most 50 characters, **and then stripped of leading/trailing
whitespace**; the stem never exceeds 50 characters; the concrete title
`"퇴근 후 100만원 만들기!!"` loses its `!` characters and yields exactly
the stem `"퇴근 후 100만원 만들기"`, to which each generator appends its
extension. -/
theorem claim_C9_filename_sanitization :
    (∀ t : String, sanitizeTitle t = pyStrip (claimedTitleStem t))
    ∧ (∀ t : String, (sanitizeTitle t).length ≤ 50)
    ∧ sanitizeTitle "퇴근 후 100만원 만들기!!" = "퇴근 후 100만원 만들기"
    ∧ (∀ d : Ebook, Pdf.pdfFilename d = sanitizeTitle d.book_title ++ ".pdf")
    ∧ (∀ d : Ebook, Hwpx.hwpxFilename d = sanitizeTitle d.book_title ++ ".hwpx") := by
  refine ⟨fun t => rfl, fun t => ?_, by decide, fun d => rfl, fun d => rfl⟩
  calc (sanitizeTitle t).length
      ≤ ((t.data.filter allowedTitleChar).take 50).length :=
        pyStripList_length_le _
    _ ≤ 50 := by
        rw [List.length_take]
        exact min_le_left _ _

/-! ## C2 — bracketed highlight labels -/

/-- A string matched by the bracket pattern starts with `[`. -/
theorem bracketMatchStr_head {s : String} {x}
    (h : bracketMatchStr s = some x) : ∃ t, s.data = '[' :: t := by
  unfold bracketMatchStr at h
  cases hm : bracketMatch s.data with
  | none => rw [hm] at h; simp at h
  | some p => exact bracketMatch_head hm

/-- A string matched by the numbered-item pattern starts with a digit. -/
theorem numListMatchStr_head {s : String} {x}
    (h : numListMatchStr s = some x) :
    ∃ a t, s.data = a :: t ∧ a.isDigit = true := by
  unfold numListMatchStr at h
  cases hm : numListMatch s.data with
  | none => rw [hm] at h; simp at h
  | some p => exact numListMatch_head hm

/-- C2 counterexample: the line `"[주차별 계획] 본문"` matches the generic
2–20-character bracket pattern, yet the fixed-page renderer emits a single
plain paragraph block holding the entire line — neither a highlight-label
block nor a trailing paragraph — because its tip pattern accepts only six
fixed labels. -/
theorem claim_C2_counterexample :
    bracketMatchStr (pyStrip "[주차별 계획] 본문") = some ("주차별 계획", "본문")
      ∧ Pdf.chapterLineBlock "[주차별 계획] 본문"
          = Pdf.Block.para "[주차별 계획] 본문"
      ∧ ∀ lbl rest, Pdf.Block.para "[주차별 계획] 본문"
          ≠ Pdf.Block.tipBox ("[" ++ lbl ++ "]" ++ rest) := by
  refine ⟨by decide, by decide, fun lbl rest h => ?_⟩
  cases h

/-- C2 (amended): only the HWPX renderer realizes the two-block rule —
for every chapter-body line matching `^\[([^\]]{2,20})\]\s*(.*)` it emits
a bold label paragraph `[ label ]` followed, when the rest is non-empty,
by that rest as a body paragraph (two blocks from one line).  The
fixed-page renderer instead boxes only its six fixed labels and always
draws the whole line as one block, and the slide parser opens a highlight
section only for labels mentioning 핵심/팁/포인트. -/
theorem claim_C2_hwpx_label_two_blocks (line lbl rest : String)
    (h : bracketMatchStr (pyStrip line) = some (lbl, rest)) :
    Hwpx.lineParas line
      = Hwpx.bold ("[ " ++ lbl ++ " ]")
          :: (if pyStrip rest ≠ "" then [Hwpx.body (pyStrip rest)] else []) := by
  obtain ⟨t, ht⟩ := bracketMatchStr_head h
  have hne : pyStrip line ≠ "" := by
    intro hcon
    rw [hcon] at ht
    simp at ht
  have hh : headingMatchStr (pyStrip line) = none := by
    unfold headingMatchStr
    rw [ht, headingMatch_none_of_head t (by decide)]
    rfl
  simp [Hwpx.lineParas, hne, hh, h]

/-- C2 witness: the two-block rule evaluated on the concrete line
`"[핵심 포인트] 포인트 본문"`. -/
theorem claim_C2_witness :
    bracketMatchStr (pyStrip "[핵심 포인트] 포인트 본문")
        = some ("핵심 포인트", "포인트 본문")
      ∧ Hwpx.lineParas "[핵심 포인트] 포인트 본문"
        = [Hwpx.bold "[ 핵심 포인트 ]", Hwpx.body "포인트 본문"] :=
  ⟨by decide,
   (claim_C2_hwpx_label_two_blocks "[핵심 포인트] 포인트 본문" "핵심 포인트"
      "포인트 본문" (by decide)).trans (by decide)⟩

/-! ## C3 — numeric list items -/

/-- C3 counterexample: the slide deck's bullet extractor — a renderer path
that emits list items — turns the numbered line `"3) 항목입니다"` into the
bullet `"항목입니다"`: it drops the number entirely instead of normalizing
to `"3. 항목입니다"`. -/
theorem claim_C3_counterexample :
    numListMatchStr "3) 항목입니다" = some ("3", "항목입니다")
      ∧ Pptx.extractBullets ["3) 항목입니다"] 5 95 = ["항목입니다"]
      ∧ ("항목입니다" : String) ≠ "3. 항목입니다" := by
  refine ⟨by decide, by decide, by decide⟩

/-- C3 (amended): the HWPX renderer alone realizes the normalization —
every body line matching `^(\d+)[.)]\s+(.+)` becomes one bullet paragraph
whose text is `• N. text`, identical for the `"N."` and `"N)"` source
forms; the slide deck's bullet extractor instead keeps only the text and
discards the number, and the fixed-page renderer has no list branch at
all (such lines stay plain paragraphs). -/
theorem claim_C3_hwpx_numeric_normalized (line n t : String)
    (h : numListMatchStr (pyStrip line) = some (n, t)) :
    Hwpx.lineParas line = [Hwpx.bullet (n ++ ". " ++ t)] := by
  obtain ⟨a, rest, hrest, hdig⟩ := numListMatchStr_head h
  have hne : pyStrip line ≠ "" := by
    intro hcon
    rw [hcon] at hrest
    simp at hrest
  have hh : headingMatchStr (pyStrip line) = none := by
    unfold headingMatchStr
    rw [hrest, headingMatch_none_of_head rest ?_]
    · rfl
    · intro he
      subst he
      exact absurd hdig (by decide)
  have hbr : bracketMatchStr (pyStrip line) = none := by
    unfold bracketMatchStr
    rw [hrest, bracketMatch_none_of_head rest ?_]
    · rfl
    · intro he
      subst he
      exact absurd hdig (by decide)
  have hbul : bulletMatchHwpx (pyStrip line).data = false := by
    rw [hrest]
    exact bulletMatchHwpx_false_of_digit hdig rest
  simp [Hwpx.lineParas, hne, hh, hbr, hbul, h]

/-- C3 witness: both numbered forms of the same item normalize to the
same single bullet `• 7. 항목`. -/
theorem claim_C3_witness :
    numListMatchStr (pyStrip "7) 항목") = some ("7", "항목")
      ∧ numListMatchStr (pyStrip "7. 항목") = some ("7", "항목")
      ∧ Hwpx.lineParas "7) 항목" = [Hwpx.bullet "7. 항목"]
      ∧ Hwpx.lineParas "7. 항목" = [Hwpx.bullet "7. 항목"] :=
  ⟨by decide, by decide,
   (claim_C3_hwpx_numeric_normalized "7) 항목" "7" "항목" (by decide)).trans
     (by decide),
   (claim_C3_hwpx_numeric_normalized "7. 항목" "7" "항목" (by decide)).trans
     (by decide)⟩

/-! ## C4 — the shared line-count formula -/

/-- Python's `-(-L // c)` (floor division) is the rational ceiling of
`L / c` for a positive divisor. -/
theorem ceil_div_eq_neg_fdiv (L : ℕ) (c : ℤ) (hc : 1 ≤ c) :
    ⌈(L : ℚ) / (c : ℚ)⌉ = -(Int.fdiv (-(L : ℤ)) c) := by
  have hc0 : 0 ≤ c := le_trans (by norm_num) hc
  rw [Int.fdiv_eq_ediv _ hc0]
  obtain ⟨d, rfl⟩ : ∃ d : ℕ, c = (d : ℤ) :=
    ⟨c.toNat, (Int.toNat_of_nonneg hc0).symm⟩
  have hd : (((d : ℕ) : ℤ) : ℚ) = ((d : ℕ) : ℚ) := by push_cast; rfl
  rw [hd]
  have h1 := @Int.ceil_neg ℚ _ _ (-((L : ℚ) / ((d : ℕ) : ℚ)))
  rw [neg_neg] at h1
  have h2 : -((L : ℚ) / ((d : ℕ) : ℚ))
      = ((-(L : ℤ) : ℤ) : ℚ) / ((d : ℕ) : ℚ) := by
    push_cast
    ring
  rw [h1, h2, Rat.floor_intCast_div_natCast]

/-- C4 (amended): the wrapped-line count used by both HWPX estimation
helpers (`_calc_content_height_pt._wrap_lines` and the inline formula of
`generate._text_height`, both embedded as `wrapLinesCalc`) equals exactly
the specified closed form `max(1, ceil(len(t) / floor(w / f)))`.  The
DOCX estimation caller, however, does not use this formula at all — it
charges a flat 600 characters per page (see the counterexample). -/
theorem claim_C4_line_count_formula (t : String) (f w : ℚ)
    (ht : t ≠ "") (hf : 0 < f) (hcpl : 1 ≤ ⌊w / f⌋) :
    Hwpx.wrapLinesCalc t ⌊w / f⌋ = Hwpx.specLineCount t f w := by
  simp only [Hwpx.wrapLinesCalc, Hwpx.specLineCount, pyFloorDiv,
    ceil_div_eq_neg_fdiv t.length ⌊w / f⌋ hcpl]

/-- C4 witness: the formula evaluated at a concrete text, the default
11 pt font and the estimator's 475.28 pt column. -/
theorem claim_C4_witness :
    (("한국어 문장" : String) ≠ "" ∧ (0 : ℚ) < 11 ∧ 1 ≤ ⌊Hwpx.PAGE_W / (11 : ℚ)⌋)
      ∧ Hwpx.wrapLinesCalc "한국어 문장" ⌊Hwpx.PAGE_W / (11 : ℚ)⌋
          = Hwpx.specLineCount "한국어 문장" 11 Hwpx.PAGE_W :=
  ⟨⟨by decide, by norm_num,
    by rw [Int.le_floor]; norm_num [Hwpx.PAGE_W]⟩,
   claim_C4_line_count_formula "한국어 문장" 11 Hwpx.PAGE_W
     (by decide) (by norm_num)
     (by rw [Int.le_floor]; norm_num [Hwpx.PAGE_W])⟩

/-- C4 counterexample: two chapter bodies with the *same* closed-form
line count at the shared constants (f = 11 pt, w = 475.28 pt, i.e. 43
characters per line and 28 lines each) for which the DOCX estimation
caller records *different* page advances (1 vs 2): its estimate is
`max(1, len // 600)` and is not derived from the line-count formula. -/
theorem claim_C4_counterexample :
    Hwpx.specLineCount chars1199 11 Hwpx.PAGE_W
        = Hwpx.specLineCount chars1204 11 Hwpx.PAGE_W
      ∧ Docx.chapterAdvance chars1199 = 1
      ∧ Docx.chapterAdvance chars1204 = 2 := by
  have hfloor : ⌊Hwpx.PAGE_W / (11 : ℚ)⌋ = 43 := by
    rw [Int.floor_eq_iff]
    constructor
    · norm_num [Hwpx.PAGE_W]
    · norm_num [Hwpx.PAGE_W]
  have hl1 : chars1199.length = 1199 := by
    rw [show chars1199.length = (List.replicate 1199 '가').length from rfl,
      List.length_replicate]
  have hl2 : chars1204.length = 1204 := by
    rw [show chars1204.length = (List.replicate 1204 '가').length from rfl,
      List.length_replicate]
  have c1 : ⌈(1199 : ℚ) / ((43 : ℤ) : ℚ)⌉ = 28 := by
    rw [Int.ceil_eq_iff] <;> norm_num
  have c2 : ⌈(1204 : ℚ) / ((43 : ℤ) : ℚ)⌉ = 28 := by
    rw [Int.ceil_eq_iff] <;> norm_num
  refine ⟨?_, ?_, ?_⟩
  · simp only [Hwpx.specLineCount, hfloor, hl1, hl2]
    rw [show ((1199 : ℕ) : ℚ) = (1199 : ℚ) by norm_num,
        show ((1204 : ℕ) : ℚ) = (1204 : ℚ) by norm_num, c1, c2]
  · simp [Docx.chapterAdvance, Docx.CHARS_PER_PAGE, hl1]
  · simp [Docx.chapterAdvance, Docx.CHARS_PER_PAGE, hl2]

/-! ## C5 — forced breaks advance exactly one page -/

/-- Adjacent recorded chapter start pages of the HWPX estimator differ by
exactly `1 + extraPagesPt(height of the earlier chapter)`: the `+1` is the
unconditional forced break, the extra pages depend only on the chapter's
own freshly-reset height total. -/
theorem hwpx_estLoop_step (c : Hwpx.Cfg) (meta : List ChapterMeta)
    (l : List ChapterContent) :
    ∀ (i cur k : ℕ), k + 1 < l.length →
      ((Hwpx.estChapterLoop c meta l i cur).getD (k + 1) (0, 0)).2
        = ((Hwpx.estChapterLoop c meta l i cur).getD k (0, 0)).2 + 1
          + Hwpx.extraPagesPt (Hwpx.chapterHeight c (l.getD k dfltChapter)) := by
  induction l with
  | nil => intro i cur k h; simp at h
  | cons chd rest ih =>
      intro i cur k h
      cases k with
      | zero =>
          cases rest with
          | nil => simp at h
          | cons chd2 rest2 =>
              simp only [Hwpx.estChapterLoop, List.getD_cons_succ,
                List.getD_cons_zero]
              omega
      | succ k =>
          have h' : k + 1 < rest.length := by
            simpa using h
          have := ih (i + 1)
            (cur + 1 + Hwpx.extraPagesPt (Hwpx.chapterHeight c chd)) k h'
          simpa [Hwpx.estChapterLoop] using this

/-- C5: whenever the HWPX pagination estimator reaches a chapter's forced
break, the page counter advances by exactly one page beyond the previous
section's pages (the first chapter starts exactly one page after the front
matter — cover, TOC, value summary, prologue, each likewise counted as one
forced page plus its own overflow) and the running height total restarts
from zero, so the next recorded start depends only on the intervening
chapter's own height, never on the space left on the current page. -/
theorem claim_C5_forced_break_step (c : Hwpx.Cfg) (d : Ebook) (k : ℕ)
    (hk : k + 1 < d.chapters_content.length) :
    ((Hwpx.chapterEstPages c d).getD 0 (0, 0)).2
        = Hwpx.estFrontPages c d + 1
      ∧ ((Hwpx.chapterEstPages c d).getD (k + 1) (0, 0)).2
          = ((Hwpx.chapterEstPages c d).getD k (0, 0)).2 + 1
            + Hwpx.extraPagesPt
                (Hwpx.chapterHeight c (d.chapters_content.getD k dfltChapter)) := by
  constructor
  · obtain ⟨chd, rest, hl⟩ : ∃ chd rest, d.chapters_content = chd :: rest := by
      cases hcc : d.chapters_content with
      | nil => rw [hcc] at hk; simp at hk
      | cons a l => exact ⟨a, l, rfl⟩
    unfold Hwpx.chapterEstPages
    rw [hl]
    rfl
  · exact hwpx_estLoop_step c d.chapters d.chapters_content 0
      (Hwpx.estFrontPages c d) k hk

/-- C5 witness: the forced-break recurrence evaluated on a concrete
two-chapter document at the default constants. -/
theorem claim_C5_witness :
    (0 + 1 < docAligned.chapters_content.length)
      ∧ (((Hwpx.chapterEstPages Hwpx.defaultCfg docAligned).getD 0 (0, 0)).2
            = Hwpx.estFrontPages Hwpx.defaultCfg docAligned + 1
          ∧ ((Hwpx.chapterEstPages Hwpx.defaultCfg docAligned).getD 1 (0, 0)).2
              = ((Hwpx.chapterEstPages Hwpx.defaultCfg docAligned).getD 0 (0, 0)).2
                  + 1
                + Hwpx.extraPagesPt
                    (Hwpx.chapterHeight Hwpx.defaultCfg
                      (docAligned.chapters_content.getD 0 dfltChapter))) :=
  ⟨by decide, claim_C5_forced_break_step Hwpx.defaultCfg docAligned 0 (by decide)⟩

/-! ## C6 — chapter start maps are non-decreasing -/

/-- The HWPX estimator's recordings are chained non-decreasing. -/
theorem hwpx_estLoop_chain (c : Hwpx.Cfg) (meta : List ChapterMeta) :
    ∀ (l : List ChapterContent) (i cur : ℕ),
      List.Chain' (· ≤ ·) ((Hwpx.estChapterLoop c meta l i cur).map Prod.snd)
        ∧ ∀ p ∈ ((Hwpx.estChapterLoop c meta l i cur).map Prod.snd).head?,
            cur + 1 ≤ p := by
  intro l
  induction l with
  | nil => intro i cur; simp [Hwpx.estChapterLoop]
  | cons chd rest ih =>
      intro i cur
      have hrec := ih (i + 1)
        (cur + 1 + Hwpx.extraPagesPt (Hwpx.chapterHeight c chd))
      constructor
      · rw [show (Hwpx.estChapterLoop c meta (chd :: rest) i cur).map Prod.snd
            = (cur + 1) :: (Hwpx.estChapterLoop c meta rest (i + 1)
                (cur + 1 + Hwpx.extraPagesPt (Hwpx.chapterHeight c chd))).map
                  Prod.snd from rfl]
        rw [List.chain'_cons']
        refine ⟨fun b hb => ?_, hrec.1⟩
        have := hrec.2 b hb
        omega
      · intro p hp
        simp only [show (Hwpx.estChapterLoop c meta (chd :: rest) i cur).map
              Prod.snd
            = (cur + 1) :: (Hwpx.estChapterLoop c meta rest (i + 1)
                (cur + 1 + Hwpx.extraPagesPt (Hwpx.chapterHeight c chd))).map
                  Prod.snd from rfl,
          List.head?_cons, Option.mem_def, Option.some_inj] at hp
        omega

/-- The DOCX estimator's recordings are chained non-decreasing. -/
theorem docx_estLoop_chain (meta : List ChapterMeta) :
    ∀ (l : List ChapterContent) (i est : ℕ),
      List.Chain' (· ≤ ·) ((Docx.estChapterLoop meta l i est).map Prod.snd)
        ∧ ∀ p ∈ ((Docx.estChapterLoop meta l i est).map Prod.snd).head?,
            est ≤ p := by
  intro l
  induction l with
  | nil => intro i est; simp [Docx.estChapterLoop]
  | cons chd rest ih =>
      intro i est
      have hadv : 1 ≤ Docx.chapterAdvance chd.content := le_max_left _ _
      have hrec := ih (i + 1) (est + Docx.chapterAdvance chd.content)
      constructor
      · rw [show (Docx.estChapterLoop meta (chd :: rest) i est).map Prod.snd
            = est :: (Docx.estChapterLoop meta rest (i + 1)
                (est + Docx.chapterAdvance chd.content)).map Prod.snd from rfl]
        rw [List.chain'_cons']
        refine ⟨fun b hb => ?_, hrec.1⟩
        have := hrec.2 b hb
        omega
      · intro p hp
        simp only [show (Docx.estChapterLoop meta (chd :: rest) i est).map
              Prod.snd
            = est :: (Docx.estChapterLoop meta rest (i + 1)
                (est + Docx.chapterAdvance chd.content)).map Prod.snd from rfl,
          List.head?_cons, Option.mem_def, Option.some_inj] at hp
        omega

/-- The slide estimator's recordings are chained non-decreasing. -/
theorem pptx_slideLoop_chain (meta : List ChapterMeta) :
    ∀ (l : List ChapterContent) (i idx : ℕ),
      List.Chain' (· ≤ ·) ((Pptx.slideNumLoop meta l i idx).map Prod.snd)
        ∧ ∀ p ∈ ((Pptx.slideNumLoop meta l i idx).map Prod.snd).head?,
            idx + 1 ≤ p := by
  intro l
  induction l with
  | nil => intro i idx; simp [Pptx.slideNumLoop]
  | cons chd rest ih =>
      intro i idx
      have hrec := ih (i + 1) (idx + 1 + (Pptx.parseSections chd.content).length)
      constructor
      · rw [show (Pptx.slideNumLoop meta (chd :: rest) i idx).map Prod.snd
            = (idx + 1) :: (Pptx.slideNumLoop meta rest (i + 1)
                (idx + 1 + (Pptx.parseSections chd.content).length)).map
                  Prod.snd from rfl]
        rw [List.chain'_cons']
        refine ⟨fun b hb => ?_, hrec.1⟩
        have := hrec.2 b hb
        omega
      · intro p hp
        simp only [show (Pptx.slideNumLoop meta (chd :: rest) i idx).map
              Prod.snd
            = (idx + 1) :: (Pptx.slideNumLoop meta rest (i + 1)
                (idx + 1 + (Pptx.parseSections chd.content).length)).map
                  Prod.snd from rfl,
          List.head?_cons, Option.mem_def, Option.some_inj] at hp
        omega

/-- C6: for every document, the chapter-to-start-page/slide recordings of
all three pagination estimators (HWPX, DOCX, slide deck) are
non-decreasing in chapter order: each recorded start is at least the one
recorded for the previous chapter. -/
theorem claim_C6_chapter_pages_monotone (c : Hwpx.Cfg) (d : Ebook) :
    List.Chain' (· ≤ ·) ((Hwpx.chapterEstPages c d).map Prod.snd)
      ∧ List.Chain' (· ≤ ·) ((Docx.chapterEstPages d).map Prod.snd)
      ∧ List.Chain' (· ≤ ·) ((Pptx.chapterSlideNums d).map Prod.snd) :=
  ⟨(hwpx_estLoop_chain c d.chapters d.chapters_content 0
      (Hwpx.estFrontPages c d)).1,
   (docx_estLoop_chain d.chapters d.chapters_content 0 (Docx.estFront d)).1,
   (pptx_slideLoop_chain d.chapters d.chapters_content 0
      (Pptx.frontSlides d)).1⟩

/-! ## C7 — empty prologue ≡ absent prologue -/

/-- The empty string is falsy. -/
theorem pyTruthy_empty : pyTruthy "" = false := rfl

/-- The prologue guard `if prologue and prologue.strip():` evaluates false
for a whitespace-only prologue. -/
theorem prologue_guard_false (s : String) (hs : pyStrip s = "") :
    (pyTruthy s && pyTruthy (pyStrip s)) = false := by
  rw [hs, pyTruthy_empty, Bool.and_false]

/-- C7: rendering a document whose prologue is an empty or whitespace-only
string produces exactly the same output as rendering it with the prologue
absent, for every format model: the fixed-page renderer's full state and
chapter recordings, the HWPX paragraph stream and page estimate, the slide
deck's slide count and slide numbers, and the DOCX page estimate — in
particular all total page/slide counts agree. -/
theorem claim_C7_empty_prologue_pages (cw : Char → ℚ) (c : Pdf.PCfg)
    (hc : Hwpx.Cfg) (d : Ebook) (s : String) (hs : pyStrip s = "")
    (skip : Bool) (s0 : Pdf.RState) :
    Pdf.renderPages cw c { d with prologue := some s } skip s0
        = Pdf.renderPages cw c { d with prologue := none } skip s0
      ∧ Hwpx.hwpxParas hc { d with prologue := some s }
          = Hwpx.hwpxParas hc { d with prologue := none }
      ∧ Hwpx.chapterEstPages hc { d with prologue := some s }
          = Hwpx.chapterEstPages hc { d with prologue := none }
      ∧ Pptx.slideCount { d with prologue := some s }
          = Pptx.slideCount { d with prologue := none }
      ∧ Pptx.chapterSlideNums { d with prologue := some s }
          = Pptx.chapterSlideNums { d with prologue := none }
      ∧ Docx.chapterEstPages { d with prologue := some s }
          = Docx.chapterEstPages { d with prologue := none } := by
  have hg1 := prologue_guard_false s hs
  refine ⟨?_, ?_, ?_, ?_, ?_, ?_⟩
  · simp only [Pdf.renderPages, Ebook.prologueStr, Ebook.epilogueStr,
      Option.getD_some, Option.getD_none, hg1, pyTruthy_empty,
      Bool.false_and, Bool.false_eq_true, if_false]
  · simp only [Hwpx.hwpxParas, Hwpx.chapterEstPages, Hwpx.estFrontPages,
      Ebook.prologueStr, Ebook.epilogueStr, Ebook.targetReader,
      Option.getD_some, Option.getD_none, hg1, pyTruthy_empty,
      Bool.false_and, Bool.false_eq_true, if_false]
  · simp only [Hwpx.chapterEstPages, Hwpx.estFrontPages,
      Ebook.prologueStr, Option.getD_some, Option.getD_none, hg1,
      pyTruthy_empty, Bool.false_and, Bool.false_eq_true, if_false]
  · simp only [Pptx.slideCount, Ebook.prologueStr, Ebook.epilogueStr,
      Option.getD_some, Option.getD_none, hg1, pyTruthy_empty,
      Bool.false_and, Bool.false_eq_true, if_false]
  · simp only [Pptx.chapterSlideNums, Pptx.frontSlides, Ebook.prologueStr,
      Option.getD_some, Option.getD_none, hg1, pyTruthy_empty,
      Bool.false_and, Bool.false_eq_true, if_false]
  · simp only [Docx.chapterEstPages, Docx.estFront, Ebook.prologueStr,
      Option.getD_some, Option.getD_none, hg1, pyTruthy_empty,
      Bool.false_and, Bool.false_eq_true, if_false]

/-- C7 witness: the equivalence evaluated on a concrete document with a
single-space prologue. -/
theorem claim_C7_witness :
    pyStrip " " = ""
      ∧ Pdf.renderPages cw0 Pdf.defaultPCfg { docAligned with prologue := some " " }
            false (Pdf.initState Pdf.defaultPCfg)
          = Pdf.renderPages cw0 Pdf.defaultPCfg { docAligned with prologue := none }
              false (Pdf.initState Pdf.defaultPCfg)
      ∧ Pptx.slideCount { docAligned with prologue := some " " }
          = Pptx.slideCount { docAligned with prologue := none } :=
  ⟨by decide,
   (claim_C7_empty_prologue_pages cw0 Pdf.defaultPCfg Hwpx.defaultCfg docAligned
      " " (by decide) false (Pdf.initState Pdf.defaultPCfg)).1,
   (claim_C7_empty_prologue_pages cw0 Pdf.defaultPCfg Hwpx.defaultCfg docAligned
      " " (by decide) false (Pdf.initState Pdf.defaultPCfg)).2.2.2.1⟩

/-! ## C1 — two-pass TOC page numbers (fixed-page renderer) -/

/-- `lookup` misses a list none of whose keys match. -/
theorem lookup_eq_none_of_nomatch (l : List (ℕ × ℕ)) (k : ℕ)
    (h : ∀ q ∈ l, q.1 ≠ k) : l.lookup k = none := by
  induction l with
  | nil => rfl
  | cons a t ih =>
      obtain ⟨a1, a2⟩ := a
      have h1 : a1 ≠ k := h (a1, a2) (List.mem_cons_self _ _)
      have hbeq : (k == a1) = false :=
        beq_eq_false_iff_ne.mpr fun he => h1 he.symm
      simp only [List.lookup, hbeq]
      exact ih fun q hq => h q (List.mem_cons_of_mem _ hq)

/-- `lookup` on an append skips a keyless left part. -/
theorem lookup_append_nomatch_left (l1 l2 : List (ℕ × ℕ)) (k : ℕ)
    (h : ∀ q ∈ l1, q.1 ≠ k) : (l1 ++ l2).lookup k = l2.lookup k := by
  induction l1 with
  | nil => rfl
  | cons a t ih =>
      obtain ⟨a1, a2⟩ := a
      have h1 : a1 ≠ k := h (a1, a2) (List.mem_cons_self _ _)
      have hbeq : (k == a1) = false :=
        beq_eq_false_iff_ne.mpr fun he => h1 he.symm
      simp only [List.cons_append, List.lookup, hbeq]
      exact ih fun q hq => h q (List.mem_cons_of_mem _ hq)

/-- `lookup` on an append ignores a keyless right part. -/
theorem lookup_append_nomatch_right (l1 l2 : List (ℕ × ℕ)) (k : ℕ)
    (h : ∀ q ∈ l2, q.1 ≠ k) : (l1 ++ l2).lookup k = l1.lookup k := by
  induction l1 with
  | nil => simpa using lookup_eq_none_of_nomatch l2 k h
  | cons a t ih =>
      obtain ⟨a1, a2⟩ := a
      cases hbe : (k == a1) with
      | true => simp only [List.cons_append, List.lookup, hbe]
      | false => simp only [List.cons_append, List.lookup, hbe]; exact ih

/-- The chapter loop records one entry per chapter. -/
theorem recordsLoop_length (cw : Char → ℚ) (c : Pdf.PCfg) (skip : Bool) :
    ∀ (l : List ChapterContent) (imgs : List Bool) (i : ℕ) (s : Pdf.RState),
      ((Pdf.renderChapterLoop cw c skip l imgs i s).2).length = l.length := by
  intro l
  induction l with
  | nil => intros; rfl
  | cons chd rest ih =>
      intro imgs i s
      simp only [Pdf.renderChapterLoop, List.length_cons, ih]

/-- Every key recorded from position `i` onwards is at least `i + 1`. -/
theorem recordsLoop_keys_ge (cw : Char → ℚ) (c : Pdf.PCfg) (skip : Bool) :
    ∀ (l : List ChapterContent) (imgs : List Bool) (i : ℕ) (s : Pdf.RState)
      (q : ℕ × ℕ), q ∈ (Pdf.renderChapterLoop cw c skip l imgs i s).2 →
      i + 1 ≤ q.1 := by
  intro l
  induction l with
  | nil => intro imgs i s q hq; simp [Pdf.renderChapterLoop] at hq
  | cons chd rest ih =>
      intro imgs i s q hq
      simp only [Pdf.renderChapterLoop, List.mem_cons] at hq
      rcases hq with h | h
      · rw [h]
      · have := ih _ _ _ q h
        omega

/-- Looking the `k`-th positional key `i + k + 1` up in the recorded dict
(last assignment wins) yields exactly the `k`-th recorded page. -/
theorem recordsLoop_dictGet (cw : Char → ℚ) (c : Pdf.PCfg) (skip : Bool) :
    ∀ (l : List ChapterContent) (imgs : List Bool) (i : ℕ) (s : Pdf.RState)
      (k : ℕ), k < l.length →
      dictGet ((Pdf.renderChapterLoop cw c skip l imgs i s).2) (i + k + 1)
        = some ((((Pdf.renderChapterLoop cw c skip l imgs i s).2).getD k (0, 0)).2) := by
  intro l
  induction l with
  | nil => intro imgs i s k h; simp at h
  | cons chd rest ih =>
      intro imgs i s k h
      cases k with
      | zero =>
          simp only [Pdf.renderChapterLoop, List.getD_cons_zero]
          unfold dictGet
          rw [List.reverse_cons, lookup_append_nomatch_left]
          · simp [List.lookup]
          · intro q hq
            rw [List.mem_reverse] at hq
            have := recordsLoop_keys_ge cw c skip rest (imgs.drop 1) (i + 1) _ q hq
            omega
      | succ k' =>
          have h' : k' < rest.length := by simpa using h
          have hstep : dictGet
              ((Pdf.renderChapterLoop cw c skip (chd :: rest) imgs i s).2)
              (i + (k' + 1) + 1)
            = dictGet ((Pdf.renderChapterLoop cw c skip rest (imgs.drop 1)
                (i + 1) (Pdf.endPageIfDrawn c (Pdf.drawChapterContent cw c
                  chd.content (Pdf.resetTop c (Pdf.endPageIfDrawn c
                    (Pdf.drawChapterStart cw c chd.chapter
                      (!skip && imgs.headD false) (Pdf.resetTop c s))))))).2)
              (i + (k' + 1) + 1) := by
            simp only [Pdf.renderChapterLoop]
            unfold dictGet
            rw [List.reverse_cons, lookup_append_nomatch_right]
            intro q hq
            simp only [List.mem_singleton] at hq
            rw [hq]
            omega
          rw [hstep]
          have := ih (imgs.drop 1) (i + 1)
            (Pdf.endPageIfDrawn c (Pdf.drawChapterContent cw c
              chd.content (Pdf.resetTop c (Pdf.endPageIfDrawn c
                (Pdf.drawChapterStart cw c chd.chapter
                  (!skip && imgs.headD false) (Pdf.resetTop c s)))))) k' h'
          rw [show i + (k' + 1) + 1 = (i + 1) + k' + 1 by omega, this]
          simp only [Pdf.renderChapterLoop, List.getD_cons_succ]

/-- With no image drawn, both passes run the chapter loop identically. -/
theorem renderChapterLoop_skip_eq (cw : Char → ℚ) (c : Pdf.PCfg) :
    ∀ (l : List ChapterContent) (imgs : List Bool),
      (∀ b ∈ imgs, b = false) → ∀ (i : ℕ) (s : Pdf.RState),
      Pdf.renderChapterLoop cw c true l imgs i s
        = Pdf.renderChapterLoop cw c false l imgs i s := by
  intro l
  induction l with
  | nil => intros; rfl
  | cons chd rest ih =>
      intro imgs himg i s
      have h0 : imgs.headD false = false := by
        cases imgs with
        | nil => rfl
        | cons b bs => exact himg b (List.mem_cons_self _ _)
      have himg' : ∀ b ∈ imgs.drop 1, b = false :=
        fun b hb => himg b (List.mem_of_mem_drop hb)
      simp only [Pdf.renderChapterLoop, h0, Bool.and_false]
      rw [ih (imgs.drop 1) himg' (i + 1) _]

/-- With no image drawn in the second pass, the chapter recordings of the
two passes of `generate` coincide. -/
theorem passRecords_skip_eq (cw : Char → ℚ) (c : Pdf.PCfg) (d : Ebook)
    (himg : ∀ b ∈ d.chapter_images, b = false) :
    Pdf.passRecords cw c d true = Pdf.passRecords cw c d false := by
  unfold Pdf.passRecords Pdf.renderPages
  simp only [renderChapterLoop_skip_eq cw c d.chapters_content d.chapter_images himg]

/-- One recording per chapter, at the pass level. -/
theorem passRecords_length (cw : Char → ℚ) (c : Pdf.PCfg) (d : Ebook)
    (skip : Bool) :
    (Pdf.passRecords cw c d skip).length = d.chapters_content.length := by
  unfold Pdf.passRecords Pdf.renderPages
  exact recordsLoop_length cw c skip d.chapters_content d.chapter_images 0 _

/-- Dict lookup of key `k + 1` in a pass's `chapter_pages` returns the
`k`-th recorded page. -/
theorem passRecords_dictGet (cw : Char → ℚ) (c : Pdf.PCfg) (d : Ebook)
    (skip : Bool) (k : ℕ) (hk : k < d.chapters_content.length) :
    dictGet (Pdf.passRecords cw c d skip) (k + 1)
      = some (((Pdf.passRecords cw c d skip).getD k (0, 0)).2) := by
  unfold Pdf.passRecords Pdf.renderPages
  simpa using recordsLoop_dictGet cw c skip d.chapters_content
    d.chapter_images 0 _ k hk

/-- Row `k` of the printed TOC looks `chapter_pages` up by the row's
`chapter_num` (default `k + 1`). -/
theorem tocPrinted_getD (d : Ebook) (map : List (ℕ × ℕ)) (k : ℕ)
    (hk : k < d.chapters.length) :
    (Pdf.tocPrintedNums d map).getD k none
      = if map = [] then none
        else dictGet map (chapterNumAt d.chapters k) := by
  unfold Pdf.tocPrintedNums
  rw [List.getD_eq_getElem?_getD, List.getElem?_map, List.getElem?_enum]
  rw [List.getElem?_eq_getElem hk]
  unfold chapterNumAt
  rw [show d.chapters.get? k = some (d.chapters[k]) from by
    rw [List.get?_eq_getElem?, List.getElem?_eq_getElem hk]]
  rfl

set_option maxRecDepth 100000 in
set_option maxHeartbeats 2000000 in
/-- C1 counterexample, both failure modes at one glance.
(1) `docSwapped`: the two chapters' display `chapter_num`s are `2, 1`
(positions swapped); the TOC prints `[4, 3]` while the second pass emits
the chapter headings on pages `3` and `4` — row 0's printed number is the
*other* chapter's page, because `_render_pages` records `chapter_pages`
by position `i+1` while `_draw_toc` looks up by `chapter_num`.
(2) `docImaged`: chapter numbers are positional, but chapter 1 draws its
image in the second pass (long wrapped title, before/after box): the image
pushes the box to a new page, so chapter 2's heading lands on page 5 while
the TOC (from the image-skipping first pass) prints page 4. -/
theorem claim_C1_counterexample :
    ((Pdf.generateTocNums cw0 Pdf.defaultPCfg docSwapped).getD 0 none
        = some 4
      ∧ Pdf.headingPage cw0 Pdf.defaultPCfg docSwapped false 0 = 3)
    ∧ ((Pdf.generateTocNums cw0 Pdf.defaultPCfg docImaged).getD 1 none
        = some 4
      ∧ Pdf.headingPage cw0 Pdf.defaultPCfg docImaged false 1 = 5) := by
  refine ⟨⟨?_, ?_⟩, ⟨?_, ?_⟩⟩ <;> with_unfolding_all decide

/-- C1 (amended): for every glyph-width table, layout configuration and
document in which (a) no chapter image is actually drawn in the second
pass and (b) every chapter's `chapter_num` equals its 1-based position
(and metadata and content chapters are 1:1), the page numbers printed in
the second pass's rendered table of contents — harvested from the first,
image-skipping pass — exactly equal the page on which each chapter's start
heading is emitted in the second pass.  Hypotheses (a) and (b) are both
necessary: see the counterexample. -/
theorem claim_C1_toc_matches_second_pass (cw : Char → ℚ) (c : Pdf.PCfg)
    (d : Ebook)
    (himg : ∀ b ∈ d.chapter_images, b = false)
    (hnum : ∀ i, i < d.chapters.length → chapterNumAt d.chapters i = i + 1)
    (hlen : d.chapters.length = d.chapters_content.length)
    (k : ℕ) (hk : k < d.chapters.length) :
    (Pdf.generateTocNums cw c d).getD k none
      = some (Pdf.headingPage cw c d false k) := by
  have hk' : k < d.chapters_content.length := hlen ▸ hk
  have hne : Pdf.passRecords cw c d true ≠ [] := by
    have hlen2 := passRecords_length cw c d true
    intro hcon
    rw [hcon] at hlen2
    simp at hlen2
    omega
  have h1 : (Pdf.generateTocNums cw c d).getD k none
      = dictGet (Pdf.passRecords cw c d true) (k + 1) := by
    unfold Pdf.generateTocNums
    rw [tocPrinted_getD d _ k hk, if_neg hne, hnum k hk]
  rw [h1, passRecords_skip_eq cw c d himg,
    passRecords_dictGet cw c d false k hk']
  rfl

/-- C1 witness: the amended agreement evaluated on a concrete aligned
two-chapter document. -/
theorem claim_C1_witness :
    ((∀ b ∈ docAligned.chapter_images, b = false)
      ∧ (∀ i, i < docAligned.chapters.length
            → chapterNumAt docAligned.chapters i = i + 1)
      ∧ docAligned.chapters.length = docAligned.chapters_content.length
      ∧ 0 < docAligned.chapters.length)
    ∧ (Pdf.generateTocNums cw0 Pdf.defaultPCfg docAligned).getD 0 none
        = some (Pdf.headingPage cw0 Pdf.defaultPCfg docAligned false 0) :=
  ⟨⟨by simp [docAligned], by decide, by decide, by decide⟩,
   claim_C1_toc_matches_second_pass cw0 Pdf.defaultPCfg docAligned
     (by simp [docAligned]) (by decide) (by decide) 0 (by decide)⟩
